import Mathlib

/-!
# Verification of the chequemate match-settlement and payment-reconciliation core

This file is a shallow embedding, in Lean 4, of the parts of the chequemate
backend that the verified properties talk about:

* `normalizePhoneNumber`, `PaymentService.initiateDeposit`,
  `PaymentService.initiateWithdrawal`, `PaymentService.processMatchResult`
  (from `services/paymentService.js`);
* `PaymentController.extractRequestId`, `PaymentController.handleCallback`
  (from `controllers/paymentController.js`);
* `PaymentTimeoutChecker` (from `services/paymentTimeoutChecker.js`);
* `PerMatchResultChecker` (from `services/PerMatchResultChecker.js`);
* `ChessComApiQueue` (from `services/ChessComApiQueue.js`).

Modelling conventions:

* JavaScript numbers are modelled as `ℚ` (amounts) and `ℤ` (ids, timestamps in
  milliseconds).  None of the verified properties depend on floating-point
  rounding; where the source multiplies a delay by `1.2` or `0.95` we use the
  exact rational.
* Database relations are Lean lists of structures; one SQL `UPDATE ... WHERE`
  is a `List.map` with a conditional, an `INSERT` appends, a `SELECT` is
  `List.filter` / `List.find?`.  `RETURNING *` corresponds to re-reading the
  updated rows.
* Nullable values are `Option`s.  JavaScript truthiness of strings, numbers
  and nullable ids is modelled explicitly (`jsTruthyS`, `jsTruthyId`): the
  empty string, `0`, `null` and `undefined` are falsy.
* Asynchronous effects — provider HTTP calls and socket notifications — are
  returned as explicit lists (`ProviderCall`, `Ev`).  The socket instance `io`
  is modelled as always available (it is set at boot in `app.js`).
* `Date.now()` is passed in as an explicit `now : ℤ` argument.
-/

namespace Chequemate

/-! ## JavaScript-flavoured primitives -/

/-- Truthiness of a nullable JS string: `null`, `undefined` and `""` are falsy. -/
def jsTruthyS : Option String → Bool
  | none => false
  | some s => s ≠ ""

/-- `a || b` on nullable strings: returns `b` whenever `a` is falsy. -/
def jsOrS (a b : Option String) : Option String :=
  if jsTruthyS a then a else b

/-- Truthiness of a nullable JS id: `null` and `0` are falsy. -/
def jsTruthyId : Option ℤ → Bool
  | none => false
  | some n => n ≠ 0

/-- ASCII lower-casing of a string (JS `String.prototype.toLowerCase` on the
ASCII payloads handled by the callback code). -/
def lowerStr (s : String) : String :=
  String.mk (s.toList.map Char.toLower)

/-- `needle` occurs as a contiguous run inside `hay`. -/
def isInfixList (needle : List Char) : List Char → Bool
  | [] => needle.isEmpty
  | c :: t => needle.isPrefixOf (c :: t) || isInfixList needle t

/-- Substring containment, JS `String.prototype.includes`. -/
def containsSub (hay needle : String) : Bool :=
  isInfixList needle.toList hay.toList

/-- A JavaScript argument value, as far as the modelled call sites need:
a number, a string, or `undefined` (also standing for `null`, which behaves
identically under `parseInt`). -/
inductive JsVal
  | num (q : ℚ)
  | str (s : String)
  | undefJs
deriving DecidableEq

/-- ASCII whitespace (the part of the JS `\s` class that occurs in the data
handled here). -/
def isJsSpace (c : Char) : Bool :=
  c = ' ' ∨ c = '\t' ∨ c = '\n' ∨ c = '\r'

/-- Leading decimal-digit run of a character list, `none` when there is no
leading digit (JS `parseInt` yields `NaN` then). -/
def digitsPrefixVal (l : List Char) : Option ℕ :=
  let ds := l.takeWhile Char.isDigit
  if ds.isEmpty then none
  else some (ds.foldl (fun acc c => acc * 10 + (c.toNat - '0'.toNat)) 0)

/-- JS `parseInt` on a string: skip leading whitespace, optional sign, then
leading base-10 digits; `none` models `NaN`. -/
def jsParseIntStr (s : String) : Option ℤ :=
  let l := s.toList.dropWhile isJsSpace
  match l with
  | '-' :: rest => (digitsPrefixVal rest).map (fun n => -(n : ℤ))
  | '+' :: rest => (digitsPrefixVal rest).map (fun n => (n : ℤ))
  | _ => (digitsPrefixVal l).map (fun n => (n : ℤ))

/-- JS `parseInt` on an arbitrary argument.  `parseInt` of a number goes
through its decimal string; every number reaching the modelled call sites is a
non-negative integer id, for which that is `⌊q⌋`.  `parseInt(undefined)` and
`parseInt(null)` are `NaN` (`none`). -/
def jsParseInt : JsVal → Option ℤ
  | .num q => some ⌊q⌋
  | .str s => jsParseIntStr s
  | .undefJs => none

/-- JS `Number(x)` for the modelled arguments (`none` models `NaN`). -/
def jsToNumber : JsVal → Option ℚ
  | .num q => some q
  | .str _ => none
  | .undefJs => none

/-- An `Option ℤ` id passed as a JS argument (`null` when absent). -/
def idToJs : Option ℤ → JsVal
  | some n => .num (n : ℚ)
  | none => .undefJs

/-! ## `normalizePhoneNumber` (services/paymentService.js, lines 14–44) -/

/-- The characters removed by `phone.replace(/[\s\-\(\)]/g, "")`. -/
def isStrippedChar (c : Char) : Bool :=
  isJsSpace c ∨ c = '-' ∨ c = '(' ∨ c = ')'

/-- `s.startsWith(pre)`, computed on the underlying character lists. -/
def strStartsWith (s pre : String) : Bool :=
  pre.toList.isPrefixOf s.toList

/-- `normalizePhoneNumber(phone)` from `paymentService.js`:
`null`/empty input returns `null`; otherwise spaces, dashes and parentheses are
stripped and the result is canonicalised to the `+254` format by the chain of
prefix checks of the source. -/
def normalizePhoneNumber (phone : Option String) : Option String :=
  if ¬ jsTruthyS phone then none
  else
    let p := phone.getD ""
    let cleaned := String.mk (p.toList.filter (fun c => ¬ isStrippedChar c))
    if strStartsWith cleaned "+254" then some cleaned
    else if strStartsWith cleaned "254" then some ("+" ++ cleaned)
    else if strStartsWith cleaned "0" then some ("+254" ++ String.mk (cleaned.toList.drop 1))
    else if cleaned.toList.length = 9 ∧ cleaned.toList.all Char.isDigit then
      some ("+254" ++ cleaned)
    else some cleaned

/-! ## Data model (the `payments`, `challenges`, `users`, `ongoing_matches` relations) -/

/-- A row of the `payments` relation. -/
structure Payment where
  id : ℤ
  user_id : Option ℤ
  challenge_id : Option ℤ
  phone_number : Option String
  amount : ℚ
  transaction_type : String
  status : String
  request_id : String
  transaction_id : Option String
  opponent_id : Option ℤ
  notes : Option String
  callback_data : Option String
  updated_at : ℤ
deriving DecidableEq

/-- A row of the `challenges` relation (the columns the modelled code touches). -/
structure Challenge where
  id : ℤ
  challenger : ℤ
  opponent : ℤ
  platform : String
  time_control : Option String
  bet_amount : ℚ
  status : String
  payment_status : String
  challenger_phone : Option String
  opponent_phone : Option String
  updated_at : ℤ
deriving DecidableEq

/-- A row of the `users` relation. -/
structure User where
  id : ℤ
  username : String
  chess_com_username : Option String
  lichess_username : Option String
  phone : Option String
  balance : ℚ
deriving DecidableEq

/-- The structured result payload stored into `ongoing_matches.match_result`
(`JSON.stringify` of either a found game result or the auto-refund record). -/
inductive MatchRecord
  | found (winner : String) (result : String) (gameUrl : String)
  | noResult (refundType : String) (amountRefunded : ℚ)
deriving DecidableEq

/-- A row of the `ongoing_matches` relation. -/
structure OngoingMatch where
  id : ℤ
  challenge_id : ℤ
  result_checked : Bool
  winner_id : Option ℤ
  result : Option String
  match_result : Option MatchRecord
  notes : Option String
  completed_at : Option ℤ
deriving DecidableEq

/-- The persistent store. -/
structure Db where
  payments : List Payment
  challenges : List Challenge
  users : List User
  ongoing_matches : List OngoingMatch
deriving DecidableEq

/-- One outbound HTTP call to the payment provider (ONIT).  The amount is the
`Math.round`ed integer sent on the wire. -/
structure ProviderCall where
  kind : String
  phone : String
  amount : ℤ
  request_id : String
deriving DecidableEq

/-- Real-time socket notifications emitted by the modelled code. -/
inductive Ev
  | paymentFailed (userId : ℤ) (challengeId : Option ℤ)
  | paymentSuccess (userId : ℤ) (challengeId : Option ℤ)
  | bothPaymentsCompleted (userId : ℤ) (challengeId : ℤ)
  | challengeExpired (userId : ℤ) (challengeId : ℤ) (reason : String) (refunded : Bool)
  | refundInitiated (userId : ℤ) (amount : ℚ)
  | refundToWallet (userId : ℤ) (amount : ℚ)
  | matchRefunded (userId : ℤ) (challengeId : ℤ) (refundType : String)
deriving DecidableEq

namespace PaymentService

/-- Result object returned by `PaymentService.initiateWithdrawal` /
`initiateDeposit` (`{success, credited_to_balance?}`). -/
structure SvcResult where
  success : Bool
  credited_to_balance : Bool
deriving DecidableEq

/-- Outcome of the combined service call: the result object, the store after
the call, the provider calls issued, and the notifications emitted. -/
structure SvcOut where
  res : SvcResult
  db : Db
  calls : List ProviderCall
  events : List Ev
deriving DecidableEq

/-- The opponent lookup at the top of `initiateDeposit`/`initiateWithdrawal`
(`SELECT challenger, opponent FROM challenges WHERE id = $1`); a failing query
(e.g. a `NaN` id) is caught and leaves `opponentId = null`. -/
def lookupOpponent (db : Db) (numericChallengeId : Option ℤ) (numericUserId : Option ℤ) :
    Option ℤ :=
  match numericChallengeId with
  | none => none
  | some cid =>
    match db.challenges.find? (fun c => c.id = cid) with
    | none => none
    | some c =>
      match numericUserId with
      | some uid => if c.challenger = uid then some c.opponent else some c.challenger
      | none => some c.challenger

/-- `PaymentService.initiateWithdrawal(phoneNumber, amount, userId, challengeId,
isRefund)` (paymentService.js lines 263–468).  `userId` and `challengeId` are
kept as raw JS values because one caller (the timeout sweeper) passes a string
and omits arguments; they go through `parseInt` exactly as in the source.
Validation failures throw, are caught by the function's own `catch`, and
surface as `{success: false}` with no store mutation.  Below the 10 KES
minimum the user's balance is credited and a `completed` row of type
`refund`/`balance_credit` is inserted; otherwise a `pending` row of type
`refund`/`payout` is inserted and the provider `withdraw` endpoint is called
through the serialized queue. -/
def initiateWithdrawal (db : Db) (phoneNumber : Option String) (amount : ℚ)
    (userId challengeId : JsVal) (isRefund : Bool) (now : ℤ) : SvcOut :=
  let normalizedPhone := normalizePhoneNumber phoneNumber
  -- the sequential `if (isNaN(...)) throw` validations of the source
  match jsParseInt userId with
  | none => ⟨⟨false, false⟩, db, [], []⟩
  | some uid =>
  match jsParseInt challengeId with
  | none => ⟨⟨false, false⟩, db, [], []⟩
  | some cid =>
    let opponentId := lookupOpponent db (some cid) (some uid)
    -- `if (!normalizedPhone) throw`: null and the empty string are both falsy
    if ¬ jsTruthyS normalizedPhone then ⟨⟨false, false⟩, db, [], []⟩
    else
      let phone := normalizedPhone.getD ""
      if amount < 10 then
        -- below minimum: credit the user's balance, insert an already
        -- completed row (type refund / balance_credit)
        let requestId :=
          (if isRefund then "REF" else "BAL") ++ s!"_{cid}_{uid}_{now}"
        let row : Payment :=
          { id := (db.payments.length : ℤ) + 1
            user_id := some uid
            challenge_id := some cid
            phone_number := some phone
            amount := amount
            transaction_type := if isRefund then "refund" else "balance_credit"
            status := "completed"
            request_id := requestId
            transaction_id := none
            opponent_id := opponentId
            notes := some (if isRefund then "Refund credited to balance (below 10 KSH minimum)"
                           else "Winnings credited to balance (below 10 KSH minimum)")
            callback_data := none
            updated_at := now }
        let db1 := { db with
          payments := db.payments ++ [row]
          users := db.users.map (fun u =>
            if u.id = uid then { u with balance := u.balance + amount } else u) }
        ⟨⟨true, true⟩, db1, [], []⟩
      else
        let requestId :=
          (if isRefund then "REF" else "PAY") ++ s!"_{cid}_{uid}_{now}"
        let row : Payment :=
          { id := (db.payments.length : ℤ) + 1
            user_id := some uid
            challenge_id := some cid
            phone_number := some phone
            amount := amount
            transaction_type := if isRefund then "refund" else "payout"
            status := "pending"
            request_id := requestId
            transaction_id := none
            opponent_id := opponentId
            notes := some (if isRefund then "Refund - withdrawn to M-PESA"
                           else "Winnings - withdrawn to M-PESA")
            callback_data := none
            updated_at := now }
        let db1 := { db with payments := db.payments ++ [row] }
        let call : ProviderCall :=
          { kind := "withdraw", phone := phone, amount := round amount, request_id := requestId }
        ⟨⟨true, false⟩, db1, [call], []⟩

/-- Provider response to the deposit call made inside `initiateDeposit`:
either a success (optionally carrying a `transactionId`), or an HTTP error
response (axios rejects with `error.response` set, carrying the error
payload). -/
inductive DepositApi
  | ok (transactionId : Option String)
  | httpError (payload : String)
deriving DecidableEq

/-- In the source of `initiateDeposit`, the `catch` block runs
`UPDATE payments SET status = 'failed', notes = $1 WHERE request_id = $2`
with `requestId` as `$2`.  `requestId` is declared with `const` *inside* the
`try` block (line 163), so it is not in scope in the `catch` block: evaluating
it raises a `ReferenceError` while the query arguments are being built.  We
model the catch block's environment for that identifier explicitly: the
binding is absent (`none`). -/
def depositCatchScopeRequestId : Option String := none

/-- The attempted mark-as-failed in `initiateDeposit`'s catch block
(paymentService.js lines 248–257).  The `pool.query` call sits in its own
inner `try`/`catch`; because looking up `requestId` throws (see
`depositCatchScopeRequestId`), the inner catch swallows the error and the
store is returned unchanged.  Had the identifier been in scope, the matching
row would get `status = 'failed'` with the error payload in `notes`. -/
def markDepositFailed (db : Db) (errPayload : String) : Db :=
  match depositCatchScopeRequestId with
  | none => db
  | some rid =>
    { db with payments := db.payments.map (fun p =>
        if p.request_id = rid then { p with status := "failed", notes := some errPayload } else p) }

/-- `PaymentService.initiateDeposit(phoneNumber, amount, userId, challengeId)`
(paymentService.js lines 98–261).  Numeric conversion uses `Number(...)`;
a `NaN` throws and is caught, yielding `{success: false}` before any row is
created.  Otherwise a `pending` `deposit` row is inserted with a fresh
`request_id` *before* the provider call; the provider call is then issued
through the serialized queue, and an HTTP error response flows to the catch
block modelled by `markDepositFailed`. -/
def initiateDeposit (db : Db) (phoneNumber : Option String)
    (amount userId challengeId : JsVal) (api : DepositApi) (now : ℤ) : SvcOut :=
  let normalizedPhone := normalizePhoneNumber phoneNumber
  let numericUserId := jsToNumber userId
  let numericChallengeId := jsToNumber challengeId
  let numericAmount := jsToNumber amount
  match numericUserId, numericChallengeId, numericAmount with
  | none, _, _ => ⟨⟨false, false⟩, db, [], []⟩
  | _, none, _ => ⟨⟨false, false⟩, db, [], []⟩
  | _, _, none => ⟨⟨false, false⟩, db, [], []⟩
  | some uidQ, some cidQ, some amt =>
    let uid : ℤ := ⌊uidQ⌋
    let cid : ℤ := ⌊cidQ⌋
    let opponentId := lookupOpponent db (some cid) (some uid)
    let requestId := s!"DEP_{cid}_{uid}_{now}"
    let row : Payment :=
      { id := (db.payments.length : ℤ) + 1
        user_id := some uid
        challenge_id := some cid
        phone_number := normalizedPhone
        amount := amt
        transaction_type := "deposit"
        status := "pending"
        request_id := requestId
        transaction_id := none
        opponent_id := opponentId
        notes := none
        callback_data := none
        updated_at := now }
    let db1 := { db with payments := db.payments ++ [row] }
    let call : ProviderCall :=
      { kind := "deposit", phone := normalizedPhone.getD "", amount := round amt,
        request_id := requestId }
    match api with
    | .ok txId =>
      let db2 :=
        match txId with
        | some tx =>
          { db1 with payments := db1.payments.map (fun p =>
              if p.request_id = requestId then { p with transaction_id := some tx } else p) }
        | none => db1
      ⟨⟨true, false⟩, db2, [call], []⟩
    | .httpError payload =>
      -- the axios call was made and failed; the outer catch sees
      -- `error.response` and tries to mark the payment failed
      ⟨⟨false, false⟩, markDepositFailed db1 payload, [call], []⟩

/-- The draw-classified chess.com result strings of
`PaymentService.processMatchResult`. -/
def drawResults : List String :=
  ["insufficient", "timevsinsufficient", "repetition", "threefold_repetition",
   "stalemate", "agreed", "fifty_move", "aborted"]

/-- The loser-identifying decisive result strings of
`PaymentService.processMatchResult`. -/
def lossResults : List String :=
  ["resigned", "timeout", "checkmated", "abandoned", "adjudication", "rule_violation"]

/-- The converted result handed to `PaymentService.processMatchResult`
(`convertResultForPayment`'s output shape). -/
structure PaymentResult where
  result : String
  winner_id : Option ℤ
  loser_id : Option ℤ
deriving DecidableEq

/-- The joined `ongoing_matches ⋈ challenges ⋈ users` row that
`PerMatchResultChecker.processMatchResult` passes to the payment service. -/
structure JoinedMatch where
  id : ℤ
  challenge_id : ℤ
  bet_amount : ℚ
  challenger : ℤ
  opponent : ℤ
  platform : String
  challenger_phone : Option String
  opponent_phone : Option String
  challenger_username : Option String
  opponent_username : Option String
deriving DecidableEq

/-- `PaymentService.processMatchResult(matchResult, challenge)`
(paymentService.js lines 471–599): no stake → nothing to process; missing
phone numbers → structured failure; draw-classified results refund both
players their stake; `win` pays double to `winner_id`'s phone; loser-class
results pay double to whoever is not `loser_id`; unknown result strings are
treated as a draw and both players are refunded. -/
def processMatchResult (db : Db) (mr : PaymentResult) (ch : JoinedMatch) (now : ℤ) : SvcOut :=
  if ch.bet_amount ≤ 0 then ⟨⟨true, false⟩, db, [], []⟩
  else if ¬ (jsTruthyS ch.challenger_phone ∧ jsTruthyS ch.opponent_phone) then
    ⟨⟨false, false⟩, db, [], []⟩
  else
    let acid := ch.challenge_id
    let refundBoth : SvcOut :=
      let o1 := initiateWithdrawal db ch.challenger_phone ch.bet_amount
        (.num (ch.challenger : ℚ)) (.num (acid : ℚ)) true now
      let o2 := initiateWithdrawal o1.db ch.opponent_phone ch.bet_amount
        (.num (ch.opponent : ℚ)) (.num (acid : ℚ)) true now
      ⟨⟨true, false⟩, o2.db, o1.calls ++ o2.calls, o1.events ++ o2.events⟩
    if mr.result ∈ drawResults then refundBoth
    else if mr.result = "win" then
      let winnerPhone :=
        if mr.winner_id = some ch.challenger then ch.challenger_phone else ch.opponent_phone
      let winnerUserId := idToJs mr.winner_id
      let o := initiateWithdrawal db winnerPhone (ch.bet_amount * 2) winnerUserId
        (.num (acid : ℚ)) false now
      ⟨⟨true, false⟩, o.db, o.calls, o.events⟩
    else if mr.result ∈ lossResults then
      let winnerPhone :=
        if mr.loser_id = some ch.challenger then ch.opponent_phone else ch.challenger_phone
      let winnerUserId : ℤ :=
        if mr.loser_id = some ch.challenger then ch.opponent else ch.challenger
      let o := initiateWithdrawal db winnerPhone (ch.bet_amount * 2)
        (.num (winnerUserId : ℚ)) (.num (acid : ℚ)) false now
      ⟨⟨true, false⟩, o.db, o.calls, o.events⟩
    else refundBoth

end PaymentService

namespace PaymentController

/-- A webhook body from the payment provider (the fields
`PaymentController.handleCallback` reads). -/
structure CallbackBody where
  originatorRequestId : Option String
  requestId : Option String
  status : Option String
  transactionReference : Option String
  transactionId : Option String
  message : Option String
  description : Option String
  responseMessage : Option String
deriving DecidableEq

/-- ASCII letter (the `[A-Z]` class under the `/i` flag). -/
def isAsciiAlpha (c : Char) : Bool :=
  ('A' ≤ c ∧ c ≤ 'Z') ∨ ('a' ≤ c ∧ c ≤ 'z')

/-- Match the token regex `[A-Z]+_\d+_\d+_\d+` (case-insensitive) at the head
of the list, returning the matched characters and the remainder.  The greedy
quantifiers of the source pattern never need to backtrack because letters,
digits and `_` are disjoint character classes, so maximal-run matching is
exact. -/
def matchIdTokenAt (l : List Char) : Option (List Char × List Char) :=
  let (ls, r1) := l.span isAsciiAlpha
  if ls.isEmpty then none else
  match r1 with
  | '_' :: r2 =>
    let (d1, r3) := r2.span Char.isDigit
    if d1.isEmpty then none else
    match r3 with
    | '_' :: r4 =>
      let (d2, r5) := r4.span Char.isDigit
      if d2.isEmpty then none else
      match r5 with
      | '_' :: r6 =>
        let (d3, r7) := r6.span Char.isDigit
        if d3.isEmpty then none
        else some (ls ++ '_' :: d1 ++ '_' :: d2 ++ '_' :: d3, r7)
      | _ => none
    | _ => none
  | _ => none

/-- Leftmost match of `/([A-Z]+_\d+_\d+_\d+)/i` in a text. -/
def findIdToken : List Char → Option (List Char)
  | [] => none
  | c :: rest =>
    match matchIdTokenAt (c :: rest) with
    | some (tok, _) => some tok
    | none => findIdToken rest

/-- Leftmost match of `/\|([A-Z]+_\d+_\d+_\d+)\s*[:]/i` in a text: a pipe,
the id token, optional whitespace, then a colon. -/
def findPipeToken : List Char → Option (List Char)
  | [] => none
  | c :: rest =>
    (if c = '|' then
      match matchIdTokenAt rest with
      | some (tok, r) =>
        match r.dropWhile isJsSpace with
        | ':' :: _ => some tok
        | _ => none
      | none => none
    else none).orElse (fun _ => findPipeToken rest)

/-- The anchored prefix-strip `requestId.match(/^\d+\|(.+)$/)` of
`extractRequestId`: one or more digits, a pipe, then a non-empty remainder
(`.` does not cross line terminators), which is returned; otherwise the id is
returned unchanged. -/
def stripOnitNumericMarker (rid : String) : String :=
  let l := rid.toList
  let ds := l.takeWhile Char.isDigit
  let r := l.drop ds.length
  match ds, r with
  | _ :: _, '|' :: rest =>
    if rest ≠ [] ∧ rest.all (fun c => c ≠ '\n' ∧ c ≠ '\r') then String.mk rest
    else rid
  | _, _ => rid

/-- `PaymentController.extractRequestId(payload)` (paymentController.js lines
209–244): prefer `originatorRequestId || requestId`, stripping the
provider-added numeric prefix; otherwise scan
`message || description || responseMessage` for an embedded id token. -/
def extractRequestId (b : CallbackBody) : Option String :=
  let rid := jsOrS b.originatorRequestId b.requestId
  if jsTruthyS rid then some (stripOnitNumericMarker (rid.getD ""))
  else
    let text := (jsOrS (jsOrS b.message b.description) b.responseMessage).getD ""
    match findPipeToken text.toList with
    | some tok => some (String.mk tok)
    | none =>
      match findIdToken text.toList with
      | some tok => some (String.mk tok)
      | none => none

/-- The provider-status → internal-status mapping of `handleCallback`
(paymentController.js lines 286–330).  A present transaction reference forces
`completed`; otherwise explicit failure codes and keyword matching over the
status and message decide; nothing recognised leaves `pending`. -/
def mapCallbackStatus (b : CallbackBody) : String :=
  if jsTruthyS b.transactionReference then "completed"
  else if jsTruthyS b.status then
    let st := lowerStr (b.status.getD "")
    let msg := lowerStr ((jsOrS b.message b.description).getD "")
    if b.status = some "5008" ∨ b.status = some "5000" ∨ b.status = some "5001" then "failed"
    else if containsSub st "success" ∨ containsSub st "complete" then "completed"
    else if containsSub st "fail" ∨ containsSub st "error" ∨ containsSub msg "cancelled" ∨
            containsSub msg "failed" ∨ containsSub msg "error" ∨
            containsSub msg "insufficient" then "failed"
    else if containsSub st "pend" ∨ containsSub st "processing" then "processing"
    else "pending"
  else
    let msg := lowerStr ((jsOrS b.message b.description).getD "")
    if containsSub msg "cancelled" ∨ containsSub msg "failed" ∨ containsSub msg "error" ∨
       containsSub msg "insufficient" then "failed"
    else "pending"

/-- The HTTP response `handleCallback` sends back to the provider. -/
structure CbResponse where
  code : ℕ
  success : Bool
  message : String
deriving DecidableEq

/-- Outcome of one webhook delivery: the response, the resulting store, and
the notifications emitted. -/
structure CbOut where
  resp : CbResponse
  db : Db
  events : List Ev
deriving DecidableEq

/-- Rendering of a nullable string field inside `stringifyBody`. -/
def showOptS : Option String → String
  | none => "null"
  | some s => "<" ++ s ++ ">"

/-- A serialisation stand-in for `JSON.stringify(req.body)` stored into
`callback_data`; injective on the fields the body carries. -/
def stringifyBody (b : CallbackBody) : String :=
  showOptS b.originatorRequestId ++ ";" ++ showOptS b.requestId ++ ";" ++
  showOptS b.status ++ ";" ++ showOptS b.transactionReference ++ ";" ++
  showOptS b.transactionId ++ ";" ++ showOptS b.message ++ ";" ++
  showOptS b.description ++ ";" ++ showOptS b.responseMessage

/-- The single `UPDATE payments SET status, transaction_id, callback_data,
updated_at WHERE request_id = $4` of `handleCallback` applied to one row.
The `WHERE` clause matches on `request_id` alone — it carries no condition on
the row's current status. -/
def applyCallbackUpdate (b : CallbackBody) (rid : String) (now : ℤ) (p : Payment) : Payment :=
  if p.request_id = rid then
    { p with
      status := mapCallbackStatus b
      transaction_id := jsOrS b.transactionReference b.transactionId
      callback_data := some (stringifyBody b)
      updated_at := now }
  else p

/-- `PaymentController.handleCallback(req, res)` (paymentController.js lines
247–580): extract the correlation id (missing → 200 with `success: false`),
map the provider status, run the conditional `UPDATE` keyed by `request_id`
(zero rows affected → 200 success-with-no-op), then emit failure/success
notifications for deposit rows and, on a completed deposit, advance the
challenge to `deposits_complete` once two completed deposits exist. -/
def handleCallback (b : CallbackBody) (db : Db) (now : ℤ) : CbOut :=
  match extractRequestId b with
  | none =>
    ⟨⟨200, false, "Missing originatorRequestId in callback"⟩, db, []⟩
  | some rid =>
    let mappedStatus := mapCallbackStatus b
    let db1 := { db with payments := db.payments.map (applyCallbackUpdate b rid now) }
    let matched := db1.payments.filter (fun p => p.request_id = rid)
    match matched.head? with
    | none =>
      ⟨⟨200, true, "Callback received but transaction not found (likely already processed)"⟩,
        db1, []⟩
    | some payment =>
      let evFail :=
        if payment.transaction_type = "deposit" ∧ mappedStatus = "failed" ∧
           jsTruthyId payment.user_id then
          [Ev.paymentFailed (payment.user_id.getD 0) payment.challenge_id]
        else []
      let evSuccess :=
        if payment.transaction_type = "deposit" ∧ mappedStatus = "completed" ∧
           jsTruthyId payment.user_id then
          [Ev.paymentSuccess (payment.user_id.getD 0) payment.challenge_id]
        else []
      let (db2, evBoth) :=
        if payment.transaction_type = "deposit" ∧ mappedStatus = "completed" ∧
           jsTruthyId payment.challenge_id then
          let chId := payment.challenge_id.getD 0
          let depositCount := (db1.payments.filter (fun p =>
            p.challenge_id = some chId ∧ p.transaction_type = "deposit" ∧
            p.status = "completed")).length
          if 2 ≤ depositCount then
            let db2 : Db := { db1 with challenges := db1.challenges.map (fun c =>
              if c.id = chId then { c with status := "deposits_complete" } else c) }
            match db2.challenges.find? (fun c => c.id = chId) with
            | some c =>
              -- the notification query joins challenges with both users
              match db2.users.find? (fun u => u.id = c.challenger),
                    db2.users.find? (fun u => u.id = c.opponent) with
              | some _, some _ =>
                (db2, [Ev.bothPaymentsCompleted c.challenger chId,
                       Ev.bothPaymentsCompleted c.opponent chId])
              | _, _ => (db2, [])
            | none => (db2, [])
          else (db1, [])
        else (db1, [])
      ⟨⟨200, true, "Callback processed successfully"⟩, db2, evFail ++ evSuccess ++ evBoth⟩

end PaymentController

namespace PaymentTimeoutChecker

/-- Outcome of one sweeper action: the resulting store, the provider calls it
actually issued, and the notifications emitted. -/
structure SweepOut where
  db : Db
  calls : List ProviderCall
  events : List Ev
deriving DecidableEq

/-- `PaymentTimeoutChecker.addToWallet(userId, amount, challengeId, reason,
opponentId)` (paymentTimeoutChecker.js lines 348–432): look up the user's
phone, credit the balance, insert a `completed` `wallet_credit` row, notify
the user. -/
def addToWallet (db : Db) (userId : ℤ) (amount : ℚ) (challengeId : ℤ)
    (opponentId : Option ℤ) (now : ℤ) : SweepOut :=
  let phoneNumber := (db.users.find? (fun u => u.id = userId)).bind (fun u => u.phone)
  let db1 : Db := { db with users := db.users.map (fun u =>
    if u.id = userId then { u with balance := u.balance + amount } else u) }
  let row : Payment :=
    { id := (db1.payments.length : ℤ) + 1
      user_id := some userId
      challenge_id := some challengeId
      phone_number := phoneNumber
      amount := amount
      transaction_type := "wallet_credit"
      status := "completed"
      request_id := s!"WALLET_CREDIT_{now}_{userId}"
      transaction_id := none
      opponent_id := opponentId
      notes := none
      callback_data := none
      updated_at := now }
  ⟨{ db1 with payments := db1.payments ++ [row] }, [], [Ev.refundToWallet userId amount]⟩

/-- `PaymentTimeoutChecker.initiateWithdrawal(userId, amount, challengeId,
reason, opponentId)` (paymentTimeoutChecker.js lines 276–346).  A missing
user or missing phone number falls back to the wallet.  Otherwise a `pending`
`withdrawal` row is inserted, and the source then calls
`paymentService.initiateWithdrawal(phoneNumber, amount, requestId)` — only
three arguments for a five-parameter function, so the generated request id
string arrives in the service's `userId` parameter and `challengeId` is
`undefined`; the returned result object is not inspected before the
`refund-initiated` notification is emitted. -/
def initiateWithdrawal (db : Db) (userId : ℤ) (amount : ℚ) (challengeId : ℤ)
    (opponentId : Option ℤ) (now : ℤ) : SweepOut :=
  match db.users.find? (fun u => u.id = userId) with
  | none => addToWallet db userId amount challengeId opponentId now
  | some u =>
    if ¬ jsTruthyS u.phone then addToWallet db userId amount challengeId opponentId now
    else
      let phoneNumber := u.phone.getD ""
      let requestId := s!"REF_{challengeId}_{userId}_{now}"
      let row : Payment :=
        { id := (db.payments.length : ℤ) + 1
          user_id := some userId
          challenge_id := some challengeId
          phone_number := some phoneNumber
          amount := amount
          transaction_type := "withdrawal"
          status := "pending"
          request_id := requestId
          transaction_id := none
          opponent_id := opponentId
          notes := none
          callback_data := none
          updated_at := now }
      let db1 : Db := { db with payments := db.payments ++ [row] }
      -- the three-argument call: requestId lands in the userId position and
      -- challengeId is undefined
      let svc := PaymentService.initiateWithdrawal db1 (some phoneNumber) amount
        (.str requestId) .undefJs false now
      ⟨svc.db, svc.calls, svc.events ++ [Ev.refundInitiated userId amount]⟩

/-- `PaymentTimeoutChecker.processRefund` (paymentTimeoutChecker.js lines
248–274): amounts at or above the 10 KES minimum go to the M-Pesa withdrawal
path, amounts below it to the wallet. -/
def processRefund (db : Db) (userId : ℤ) (amount : ℚ) (challengeId : ℤ)
    (opponentId : Option ℤ) (now : ℤ) : SweepOut :=
  if 10 ≤ amount then initiateWithdrawal db userId amount challengeId opponentId now
  else addToWallet db userId amount challengeId opponentId now

/-- The shared `UPDATE challenges SET status = 'cancelled', payment_status =
'failed' WHERE id = $1` of both timeout handlers. -/
def cancelChallenge (db : Db) (challengeId : ℤ) (now : ℤ) : Db :=
  { db with challenges := db.challenges.map (fun c =>
      if c.id = challengeId then
        { c with status := "cancelled", payment_status := "failed", updated_at := now }
      else c) }

/-- The shared `UPDATE payments SET status = 'cancelled' WHERE challenge_id =
$1 AND status IN ('pending', 'failed')` of both timeout handlers. -/
def cancelStalePayments (db : Db) (challengeId : ℤ) : Db :=
  { db with payments := db.payments.map (fun p =>
      if p.challenge_id = some challengeId ∧ (p.status = "pending" ∨ p.status = "failed") then
        { p with status := "cancelled" }
      else p) }

/-- `PaymentTimeoutChecker.handlePartialPaymentTimeout(challenge, payment)`
(paymentTimeoutChecker.js lines 136–204): refund the user who paid, cancel
the challenge, cancel pending/failed payment rows, notify the paying and
non-paying players with differentiated messages. -/
def handlePartialPaymentTimeout (db : Db) (ch : Challenge) (payUserId : ℤ)
    (payAmount : ℚ) (now : ℤ) : SweepOut :=
  let opponentId := if ch.challenger = payUserId then ch.opponent else ch.challenger
  let r := processRefund db payUserId payAmount ch.id (some opponentId) now
  let db2 := cancelChallenge r.db ch.id now
  let db3 := cancelStalePayments db2 ch.id
  let evs :=
    [Ev.challengeExpired payUserId ch.id "opponent_no_payment" true,
     Ev.challengeExpired opponentId ch.id "payment_timeout" false]
  ⟨db3, r.calls, r.events ++ evs⟩

/-- `PaymentTimeoutChecker.handleFullExpiry(challenge)`
(paymentTimeoutChecker.js lines 206–246): cancel the challenge and its
pending/failed payment rows, notify both players; nothing is refunded. -/
def handleFullExpiry (db : Db) (ch : Challenge) (now : ℤ) : SweepOut :=
  let db1 := cancelChallenge db ch.id now
  let db2 := cancelStalePayments db1 ch.id
  ⟨db2, [],
   [Ev.challengeExpired ch.challenger ch.id "full_expiry" false,
    Ev.challengeExpired ch.opponent ch.id "full_expiry" false]⟩

/-- `PaymentTimeoutChecker.processExpiredChallenge(challenge)`
(paymentTimeoutChecker.js lines 80–134): count the challenge's completed
deposit rows; exactly one completed and more than five minutes since
acceptance → partial-payment timeout; none completed past the deadline →
full expiry; both completed → repair `payment_status`. -/
def processExpiredChallenge (db : Db) (ch : Challenge) (now : ℤ) : SweepOut :=
  let timeSinceAccepted := now - ch.updated_at
  let deposits := db.payments.filter (fun p =>
    p.challenge_id = some ch.id ∧ p.transaction_type = "deposit")
  let completed := deposits.filter (fun p => p.status = "completed")
  if completed.length = 1 ∧ 300000 < timeSinceAccepted then
    match completed.head? with
    | some p => handlePartialPaymentTimeout db ch (p.user_id.getD 0) p.amount now
    | none => ⟨db, [], []⟩
  else if completed.length = 0 ∧ 300000 < timeSinceAccepted then
    handleFullExpiry db ch now
  else if completed.length = 2 then
    ⟨{ db with challenges := db.challenges.map (fun c =>
        if c.id = ch.id then { c with payment_status := "completed" } else c) }, [], []⟩
  else ⟨db, [], []⟩

end PaymentTimeoutChecker

namespace PerMatchResultChecker

/-- A finished-game result returned by `checkChessComResult`: the winning
username (or `"draw"`), the classified result string, and the game URL. -/
structure FoundResult where
  winner : String
  result : String
  gameUrl : String
deriving DecidableEq

/-- The per-platform username CASE expression used by the join queries. -/
def usernameFor (u : User) (platform : String) : Option String :=
  if platform = "chess.com" then u.chess_com_username
  else if platform = "lichess" then u.lichess_username
  else some u.username

/-- The `ongoing_matches ⋈ challenges ⋈ users ⋈ users` query at the top of
`PerMatchResultChecker.processMatchResult` (lines 401–421).  Its `WHERE`
clause is `om.id = $1` alone — it does not filter on `result_checked`. -/
def matchJoin (db : Db) (matchId : ℤ) : Option PaymentService.JoinedMatch :=
  match db.ongoing_matches.find? (fun om => om.id = matchId) with
  | none => none
  | some om =>
    match db.challenges.find? (fun c => c.id = om.challenge_id) with
    | none => none
    | some c =>
      match db.users.find? (fun u => u.id = c.challenger),
            db.users.find? (fun u => u.id = c.opponent) with
      | some cu, some ou =>
        some { id := om.id
               challenge_id := om.challenge_id
               bet_amount := c.bet_amount
               challenger := c.challenger
               opponent := c.opponent
               platform := c.platform
               challenger_phone := c.challenger_phone
               opponent_phone := c.opponent_phone
               challenger_username := usernameFor cu c.platform
               opponent_username := usernameFor ou c.platform }
      | _, _ => none

/-- `PerMatchResultChecker.convertResultForPayment(chessResult, match)`
(lines 489–515): map the winning username onto user ids via the joined
usernames; `"draw"` or an unmatched username leaves both ids `null`. -/
def convertResultForPayment (fr : FoundResult) (m : PaymentService.JoinedMatch) :
    PaymentService.PaymentResult :=
  if fr.winner = "draw" then
    { result := fr.result, winner_id := none, loser_id := none }
  else if some fr.winner = m.challenger_username then
    { result := fr.result, winner_id := some m.challenger, loser_id := some m.opponent }
  else if some fr.winner = m.opponent_username then
    { result := fr.result, winner_id := some m.opponent, loser_id := some m.challenger }
  else
    { result := fr.result, winner_id := none, loser_id := none }

/-- Outcome of a poller action: the resulting store, provider calls, and
notifications. -/
structure PollOut where
  db : Db
  calls : List ProviderCall
  events : List Ev
deriving DecidableEq

/-- `PerMatchResultChecker.processMatchResult(matchId, result)` (lines
393–486): join the match row (unconditionally on `result_checked`), convert
the result, process payment when the challenge carries a stake, then run
`UPDATE ongoing_matches SET result_checked = true, match_result, winner_id,
result, completed_at WHERE id = $4` — again with no guard on the row's
current `result_checked` value. -/
def processMatchResult (db : Db) (matchId : ℤ) (fr : FoundResult) (now : ℤ) : PollOut :=
  match matchJoin db matchId with
  | none => ⟨db, [], []⟩
  | some m =>
    let pr := convertResultForPayment fr m
    let afterPay :=
      if 0 < m.bet_amount then PaymentService.processMatchResult db pr m now
      else ⟨⟨true, false⟩, db, [], []⟩
    let db2 : Db := { afterPay.db with
      ongoing_matches := afterPay.db.ongoing_matches.map (fun om =>
        if om.id = matchId then
          { om with
            result_checked := true
            match_result := some (.found fr.winner fr.result fr.gameUrl)
            winner_id := pr.winner_id
            result := some pr.result
            completed_at := some now }
        else om) }
    ⟨db2, afterPay.calls, afterPay.events⟩

/-- `PerMatchResultChecker.handleNoResultFound(matchId, players)` (lines
565–754): the auto-refund safety net after the attempt budget is exhausted.
No stake → mark resolved with no money movement.  A stake strictly greater
than 10 KES → M-Pesa refunds to both players through
`paymentService.initiateWithdrawal`; a stake of at most 10 KES → direct
wallet credits with a paired `refund` row per player.  Finally the match is
marked `result_checked = TRUE` with a structured `no_result` outcome and
both players are notified. -/
def handleNoResultFound (db : Db) (matchId : ℤ) (now : ℤ) : PollOut :=
  match db.ongoing_matches.find? (fun om => om.id = matchId) with
  | none => ⟨db, [], []⟩
  | some om =>
    match db.challenges.find? (fun c => c.id = om.challenge_id) with
    | none => ⟨db, [], []⟩
    | some ch =>
      let betAmount := ch.bet_amount
      if betAmount = 0 then
        let db1 : Db := { db with ongoing_matches := db.ongoing_matches.map (fun o =>
          if o.id = matchId then
            { o with result_checked := true, result := some "no_result_no_bet",
                     notes := some "No result found. No bet amount to refund.",
                     completed_at := some now }
          else o) }
        ⟨db1, [], []⟩
      else
        let refundType := if 10 < betAmount then "mpesa" else "wallet"
        let (dbR, calls) :=
          if 10 < betAmount then
            let o1 := PaymentService.initiateWithdrawal db ch.challenger_phone betAmount
              (.num (ch.challenger : ℚ)) (.num (om.challenge_id : ℚ)) true now
            let o2 := PaymentService.initiateWithdrawal o1.db ch.opponent_phone betAmount
              (.num (ch.opponent : ℚ)) (.num (om.challenge_id : ℚ)) true now
            (o2.db, o1.calls ++ o2.calls)
          else
            let db1 : Db := { db with users := db.users.map (fun u =>
              if u.id = ch.challenger then { u with balance := u.balance + betAmount } else u) }
            let db2 : Db := { db1 with users := db1.users.map (fun u =>
              if u.id = ch.opponent then { u with balance := u.balance + betAmount } else u) }
            let mkRow (k : ℤ) (uid : ℤ) (phone : Option String) : Payment :=
              { id := (db2.payments.length : ℤ) + k
                user_id := some uid
                challenge_id := some om.challenge_id
                phone_number := phone
                amount := betAmount
                transaction_type := "refund"
                status := "completed"
                request_id := s!"REFUND_WALLET_{om.challenge_id}_{uid}_{now}"
                transaction_id := none
                opponent_id := none
                notes := some "No result found. Amount credited to wallet."
                callback_data := none
                updated_at := now }
            ({ db2 with payments := db2.payments ++
                [mkRow 1 ch.challenger ch.challenger_phone,
                 mkRow 2 ch.opponent ch.opponent_phone] },
             [])
        let dbF : Db := { dbR with ongoing_matches := dbR.ongoing_matches.map (fun o =>
          if o.id = matchId then
            { o with result_checked := true, result := some "no_result_refunded",
                     match_result := some (.noResult refundType betAmount),
                     completed_at := some now }
          else o) }
        ⟨dbF, calls,
         [Ev.matchRefunded ch.challenger om.challenge_id refundType,
          Ev.matchRefunded ch.opponent om.challenge_id refundType]⟩

/-- `maxChecksPerMatch` of the per-match checker. -/
def maxChecksPerMatch : ℕ := 4

/-- What a single firing of `checkMatchResult` observed. -/
inductive PollOutcome
  | found (fr : FoundResult)
  | notFound
  | rateLimitedBefore
  | rateLimitError
  | apiError
deriving DecidableEq

/-- The control state of one `checkMatchResult` timer chain: its in-memory
attempt counter and whether the chain is still scheduled.  `stopCheckingMatch`
clears the timer and deletes the entry, which ends the chain. -/
structure ChainState where
  checkCount : ℕ
  active : Bool
deriving DecidableEq

/-- One firing of `checkMatchResult(matchId, players, checkCount)` (lines
101–211), abstracted to its control flow.  The returned `ℕ` counts the
settlement actions performed (a `processMatchResult` on a found result, or a
`handleNoResultFound` on an exhausted budget); both are followed by
`stopCheckingMatch`, which ends the chain.  A pre-check rate limit postpones
the same attempt; errors and misses reschedule with the counter advanced. -/
def checkStep (s : ChainState) (o : PollOutcome) : ChainState × ℕ :=
  if ¬ s.active then (s, 0)
  else if maxChecksPerMatch ≤ s.checkCount then ({ s with active := false }, 1)
  else
    match o with
    | .found _ => ({ s with active := false }, 1)
    | .notFound => ({ s with checkCount := s.checkCount + 1 }, 0)
    | .rateLimitedBefore => (s, 0)
    | .rateLimitError => ({ s with checkCount := s.checkCount + 1 }, 0)
    | .apiError => ({ s with checkCount := s.checkCount + 1 }, 0)

/-- Run one timer chain over a sequence of observed poll outcomes, counting
the settlements it performs. -/
def runChain : ChainState → List PollOutcome → ChainState × ℕ
  | s, [] => (s, 0)
  | s, o :: rest =>
    ((runChain (checkStep s o).1 rest).1,
      (checkStep s o).2 + (runChain (checkStep s o).1 rest).2)

end PerMatchResultChecker

namespace ChessComApiQueue

/-- The mutable state of the chess.com API client (`ChessComApiQueue`'s
fields).  Queue entries are caller ids; a promise belonging to a queued
caller settles only when an explicit `Settlement` is produced for it. -/
structure QState where
  queue : List ℤ
  requestDelay : ℚ
  lastRequestTime : ℤ
  consecutiveSuccesses : ℕ
  consecutiveFailures : ℕ
  rateLimitedUntil : Option ℤ
  cache : List (String × ℤ × ℤ)
deriving DecidableEq

/-- `Math.ceil(remainingMs / 60000)` for a positive remainder. -/
def ceilMinutes (ms : ℤ) : ℤ := (ms + 59999) / 60000

/-- `ChessComApiQueue.isRateLimited()` (lines 83–96): `false` outside a
window; inside it, the remaining minutes (always ≥ 1, hence truthy); an
expired window is cleared. -/
def isRateLimited (st : QState) (now : ℤ) : Option ℤ × QState :=
  match st.rateLimitedUntil with
  | none => (none, st)
  | some u =>
    if now < u then (some (ceilMinutes (u - now)), st)
    else (none, { st with rateLimitedUntil := none })

/-- The 5-minute rate-limit window duration (`setRateLimit`'s default). -/
def rateLimitDurationMs : ℤ := 300000

/-- `ChessComApiQueue.setRateLimit()` (lines 99–113): open the window and
clear the queue.  The removed entries are dropped with `this.queue = []`;
nothing resolves or rejects their promises. -/
def setRateLimit (st : QState) (now : ℤ) : QState :=
  { st with rateLimitedUntil := some (now + rateLimitDurationMs), queue := [] }

/-- A request descriptor (`config`). -/
structure ReqConfig where
  method : String
  url : String
deriving DecidableEq

/-- `getCacheKey(config, cacheType)`. -/
def getCacheKey (cfg : ReqConfig) (cacheType : String) : String :=
  cacheType ++ ":" ++ cfg.method ++ ":" ++ cfg.url

/-- What `request()` did with a call: rejected it up front with the
rate-limit error, served it from cache, or queued it for dispatch.  The
underlying HTTP call happens only when a queued entry is later dispatched by
`processQueue`. -/
inductive ReqOutcome
  | rejectedRateLimited (minutes : ℤ)
  | cacheHit
  | queued
deriving DecidableEq

/-- `ChessComApiQueue.request(config, cacheType)` (lines 116–161): an active
cooldown rejects the call before anything is queued; otherwise a fresh GET
cache entry is served, an expired one evicted, and the call is appended to
the FIFO. -/
def request (st : QState) (now : ℤ) (cfg : ReqConfig) (cacheType : String)
    (callerId : ℤ) : ReqOutcome × QState :=
  match isRateLimited st now with
  | (some m, st1) => (.rejectedRateLimited m, st1)
  | (none, st1) =>
    let key := getCacheKey cfg cacheType
    if cfg.method = "get" then
      match st1.cache.find? (fun e => e.1 = key) with
      | some e =>
        if now - e.2.1 < e.2.2 then (.cacheHit, st1)
        else
          let st2 : QState := { st1 with cache := st1.cache.filter (fun e2 => e2.1 ≠ key) }
          (.queued, { st2 with queue := st2.queue ++ [callerId] })
      | none => (.queued, { st1 with queue := st1.queue ++ [callerId] })
    else (.queued, { st1 with queue := st1.queue ++ [callerId] })

/-- The error object a failed dispatch carries (`error.response.status`,
`error.code`, `error.message`). -/
structure JsError where
  status : Option ℤ
  code : Option String
  message : String
deriving DecidableEq

/-- The rate-limit detection predicate of `processQueue`'s catch block
(lines 229–234). -/
def isRateLimitError (e : JsError) : Bool :=
  (match e.status with | some c => decide (c = 410 ∨ c = 429) | none => false) ||
  (decide (e.code = some "ERR_BAD_REQUEST") && containsSub e.message "410") ||
  containsSub e.message "status code 410" ||
  containsSub e.message "status code 429"

/-- How one caller's promise was settled. -/
structure Settlement where
  caller : ℤ
  rejected : Bool
deriving DecidableEq

/-- The failure branch of `ChessComApiQueue.processQueue` (lines 222–251),
entered after the already dequeued `inflight` item's HTTP call failed.
On a 410/429 the rate-limit window opens (clearing the queue) and the delay
doubles up to the 10 s cap; otherwise the delay grows by 20 % up to 5 s.
The only promise settled is the in-flight item's own rejection. -/
def processQueueFailure (st : QState) (now : ℤ) (inflight : ℤ) (e : JsError) :
    QState × List Settlement :=
  let st1 : QState := { st with
    consecutiveSuccesses := 0
    consecutiveFailures := st.consecutiveFailures + 1 }
  if isRateLimitError e then
    let st2 := setRateLimit st1 now
    ({ st2 with requestDelay := min 10000 (st2.requestDelay * 2) }, [⟨inflight, true⟩])
  else
    ({ st1 with requestDelay := min 5000 (st1.requestDelay * (6 / 5)) }, [⟨inflight, true⟩])

end ChessComApiQueue

/-! ## Concrete fixtures for witnesses and counterexamples -/

/-- A challenger with a phone number on file. -/
def exUserA : User :=
  { id := 7, username := "alice", chess_com_username := some "alice",
    lichess_username := none, phone := some "+254700000001", balance := 0 }

/-- An opponent with a phone number on file. -/
def exUserB : User :=
  { id := 8, username := "bob", chess_com_username := some "bob",
    lichess_username := none, phone := some "+254700000002", balance := 0 }

/-- An accepted 50 KES challenge between the two users. -/
def exChallenge : Challenge :=
  { id := 1, challenger := 7, opponent := 8, platform := "chess.com",
    time_control := some "5+0", bet_amount := 50, status := "accepted",
    payment_status := "pending", challenger_phone := some "+254700000001",
    opponent_phone := some "+254700000002", updated_at := 0 }

/-- The challenger's pending deposit row awaiting its webhook. -/
def exDeposit : Payment :=
  { id := 1, user_id := some 7, challenge_id := some 1,
    phone_number := some "+254700000001", amount := 50,
    transaction_type := "deposit", status := "pending",
    request_id := "DEP_1_7_100", transaction_id := none, opponent_id := some 8,
    notes := none, callback_data := none, updated_at := 0 }

/-- Store used by the callback idempotency scenario. -/
def exDb : Db :=
  { payments := [exDeposit], challenges := [exChallenge],
    users := [exUserA, exUserB], ongoing_matches := [] }

/-- A success webhook for the pending deposit: the provider sent a
transaction reference and (as it often does) no status field. -/
def exBody : PaymentController.CallbackBody :=
  { originatorRequestId := some "DEP_1_7_100", requestId := none, status := none,
    transactionReference := some "TX1", transactionId := none, message := none,
    description := none, responseMessage := none }

/-! ## Shared list helpers -/

theorem drop_len_append {α : Type} (l m : List α) : (l ++ m).drop l.length = m :=
  List.drop_left l m

theorem drop_len_map_append {α β : Type} (l m : List α) (f : α → β) :
    ((l ++ m).map f).drop l.length = m.map f := by
  rw [List.map_append]
  have h := List.drop_left (l.map f) (m.map f)
  rw [List.length_map] at h
  exact h

/-! ## C10 — phone normalization and its storage in Payment rows -/

theorem bool_ne_true {b : Bool} (h : b = false) : ¬ (b = true) := by simp [h]

/-- Unfolding of `normalizePhoneNumber` on a non-empty input. -/
theorem normalizePhoneNumber_some_eq (s : String) (hs : s ≠ "") :
    normalizePhoneNumber (some s) =
      (if strStartsWith (String.mk (s.toList.filter (fun ch => ¬ isStrippedChar ch))) "+254" then
        some (String.mk (s.toList.filter (fun ch => ¬ isStrippedChar ch)))
      else if strStartsWith (String.mk (s.toList.filter (fun ch => ¬ isStrippedChar ch))) "254" then
        some ("+" ++ String.mk (s.toList.filter (fun ch => ¬ isStrippedChar ch)))
      else if strStartsWith (String.mk (s.toList.filter (fun ch => ¬ isStrippedChar ch))) "0" then
        some ("+254" ++ String.mk ((String.mk (s.toList.filter
          (fun ch => ¬ isStrippedChar ch))).toList.drop 1))
      else if (String.mk (s.toList.filter (fun ch => ¬ isStrippedChar ch))).toList.length = 9 ∧
          (String.mk (s.toList.filter (fun ch => ¬ isStrippedChar ch))).toList.all Char.isDigit then
        some ("+254" ++ String.mk (s.toList.filter (fun ch => ¬ isStrippedChar ch)))
      else some (String.mk (s.toList.filter (fun ch => ¬ isStrippedChar ch)))) := by
  have hts : jsTruthyS (some s) = true := by simp [jsTruthyS, hs]
  simp only [normalizePhoneNumber, hts, not_true, if_false, Option.getD_some]

/-- **C10.** `normalizePhoneNumber` is a deterministic total function: a
null/empty input returns null; otherwise, writing `c` for the input with
spaces, dashes and parentheses stripped: a `c` starting with `+254` is
returned unchanged, one starting with `254` gets a `+` prepended, one starting
with `0` has the `0` replaced by `+254`, a bare 9-digit `c` gets `+254`
prepended, and anything else is returned as `c`; and every Payment row created
by `initiateDeposit`/`initiateWithdrawal` stores this normalized form. -/
theorem C10_normalizePhoneNumber_spec :
    (normalizePhoneNumber none = none ∧ normalizePhoneNumber (some "") = none) ∧
    (∀ (s c : String), s ≠ "" →
      c = String.mk (s.toList.filter (fun ch => ¬ isStrippedChar ch)) →
      (strStartsWith c "+254" = true → normalizePhoneNumber (some s) = some c) ∧
      (strStartsWith c "+254" = false → strStartsWith c "254" = true →
        normalizePhoneNumber (some s) = some ("+" ++ c)) ∧
      (strStartsWith c "+254" = false → strStartsWith c "254" = false →
        strStartsWith c "0" = true →
        normalizePhoneNumber (some s) = some ("+254" ++ String.mk (c.toList.drop 1))) ∧
      (strStartsWith c "+254" = false → strStartsWith c "254" = false →
        strStartsWith c "0" = false → c.toList.length = 9 →
        c.toList.all Char.isDigit = true →
        normalizePhoneNumber (some s) = some ("+254" ++ c)) ∧
      (strStartsWith c "+254" = false → strStartsWith c "254" = false →
        strStartsWith c "0" = false →
        ¬ (c.toList.length = 9 ∧ c.toList.all Char.isDigit = true) →
        normalizePhoneNumber (some s) = some c)) ∧
    (∀ (db : Db) (phone : Option String) (a : ℚ) (uid cid : ℤ)
        (api : PaymentService.DepositApi) (now : ℤ),
      ∀ p ∈ (PaymentService.initiateDeposit db phone (.num a) (.num (uid : ℚ))
          (.num (cid : ℚ)) api now).db.payments.drop db.payments.length,
        p.phone_number = normalizePhoneNumber phone) ∧
    (∀ (db : Db) (phone : Option String) (a : ℚ) (uid cid : ℤ) (r : Bool) (now : ℤ),
      ∀ p ∈ (PaymentService.initiateWithdrawal db phone a (.num (uid : ℚ))
          (.num (cid : ℚ)) r now).db.payments.drop db.payments.length,
        p.phone_number = normalizePhoneNumber phone) := by
  refine ⟨⟨rfl, rfl⟩, ?_, ?_, ?_⟩
  · intro s c hs hc
    subst hc
    have base := normalizePhoneNumber_some_eq s hs
    refine ⟨?_, ?_, ?_, ?_, ?_⟩
    · intro h1
      rw [base, if_pos h1]
    · intro h1 h2
      rw [base, if_neg (bool_ne_true h1), if_pos h2]
    · intro h1 h2 h3
      rw [base, if_neg (bool_ne_true h1), if_neg (bool_ne_true h2), if_pos h3]
    · intro h1 h2 h3 h4 h5
      rw [base, if_neg (bool_ne_true h1), if_neg (bool_ne_true h2), if_neg (bool_ne_true h3),
        if_pos ⟨h4, h5⟩]
    · intro h1 h2 h3 h4
      rw [base, if_neg (bool_ne_true h1), if_neg (bool_ne_true h2), if_neg (bool_ne_true h3),
        if_neg h4]
  · intro db phone a uid cid api now p hp
    simp only [PaymentService.initiateDeposit, jsToNumber] at hp
    rcases api with txId | payload
    · rcases txId with _ | tx
      · rw [drop_len_append] at hp
        simp only [List.mem_singleton] at hp
        rw [hp]
      · rw [drop_len_map_append] at hp
        simp only [List.map_cons, List.map_nil, List.mem_singleton] at hp
        rw [hp]
        split <;> rfl
    · simp only [PaymentService.markDepositFailed, PaymentService.depositCatchScopeRequestId]
        at hp
      rw [drop_len_append] at hp
      simp only [List.mem_singleton] at hp
      rw [hp]
  · intro db phone a uid cid r now p hp
    simp only [PaymentService.initiateWithdrawal] at hp
    rcases hph : normalizePhoneNumber phone with _ | ph
    · simp only [jsParseInt, Int.floor_intCast, hph] at hp
      simp [jsTruthyS] at hp
    · by_cases hne : ph = ""
      · subst hne
        simp only [jsParseInt, Int.floor_intCast, hph] at hp
        simp [jsTruthyS] at hp
      · have htr : jsTruthyS (some ph) = true := by simp [jsTruthyS, hne]
        simp only [jsParseInt, Int.floor_intCast, hph, htr, not_true, eq_self_iff_true,
          if_false, Option.getD_some] at hp
        by_cases hlt : a < 10
        · simp only [if_pos hlt] at hp
          rw [drop_len_append] at hp
          simp only [List.mem_singleton] at hp
          rw [hp]
        · simp only [if_neg hlt] at hp
          rw [drop_len_append] at hp
          simp only [List.mem_singleton] at hp
          rw [hp]

/-- Witness for C10 at concrete inputs: `"0712 345-678"` normalizes to
`"+254712345678"`, and a concrete withdrawal stores the normalized phone in
the row it inserts. -/
theorem C10_witness :
    normalizePhoneNumber (some "0712 345-678") = some "+254712345678" ∧
    ((PaymentService.initiateWithdrawal exDb (some "0712 345-678") 50 (.num (7 : ℚ))
        (.num (1 : ℚ)) true 5).db.payments.drop exDb.payments.length).all
      (fun p => decide (p.phone_number = normalizePhoneNumber (some "0712 345-678"))) = true := by
  constructor
  · have h := (C10_normalizePhoneNumber_spec.2.1 "0712 345-678" "0712345678"
      (by decide) (by decide)).2.2.1 (by decide) (by decide) (by decide)
    exact h.trans (by decide)
  · apply List.all_eq_true.mpr
    intro p hp
    exact decide_eq_true
      (C10_normalizePhoneNumber_spec.2.2.2 exDb (some "0712 345-678") 50 7 1 true 5 p hp)

/-! ## C8 — the rate-limit cooldown short-circuits every request -/

/-- **C8.** If the External API Client receives an HTTP 429/410 at time `t`,
then for the next 5 minutes every `request()` call is rejected with the
rate-limited error before being queued (the queue, through which every
underlying HTTP call is dispatched, is left untouched), and once the window
has elapsed requests are no longer rejected for rate limiting. -/
theorem C8_rateLimit_window (st : ChessComApiQueue.QState) (t now inflight callerId : ℤ)
    (e : ChessComApiQueue.JsError) (cfg : ChessComApiQueue.ReqConfig) (ct : String)
    (he : ChessComApiQueue.isRateLimitError e = true) :
    (t ≤ now → now < t + ChessComApiQueue.rateLimitDurationMs →
      (ChessComApiQueue.request ((ChessComApiQueue.processQueueFailure st t inflight e).1)
          now cfg ct callerId).1
        = .rejectedRateLimited
            (ChessComApiQueue.ceilMinutes (t + ChessComApiQueue.rateLimitDurationMs - now)) ∧
      (ChessComApiQueue.request ((ChessComApiQueue.processQueueFailure st t inflight e).1)
          now cfg ct callerId).2.queue
        = ((ChessComApiQueue.processQueueFailure st t inflight e).1).queue) ∧
    (t + ChessComApiQueue.rateLimitDurationMs ≤ now → ∀ m : ℤ,
      (ChessComApiQueue.request ((ChessComApiQueue.processQueueFailure st t inflight e).1)
          now cfg ct callerId).1 ≠ .rejectedRateLimited m) := by
  have hst : ((ChessComApiQueue.processQueueFailure st t inflight e).1).rateLimitedUntil
      = some (t + ChessComApiQueue.rateLimitDurationMs) := by
    simp [ChessComApiQueue.processQueueFailure, ChessComApiQueue.setRateLimit, he]
  constructor
  · intro _ hlt
    simp only [ChessComApiQueue.request, ChessComApiQueue.isRateLimited, hst, if_pos hlt]
    exact ⟨trivial, trivial⟩
  · intro hge m
    have hnlt : ¬ now < t + ChessComApiQueue.rateLimitDurationMs := by omega
    simp only [ChessComApiQueue.request, ChessComApiQueue.isRateLimited, hst, if_neg hnlt]
    split
    · split
      · split <;> simp
      · simp
    · simp

/-- Witness for C8: a concrete 429 at `t = 0` rejects a request at
`now = 100` with 5 minutes remaining. -/
theorem C8_witness :
    (ChessComApiQueue.request
        ((ChessComApiQueue.processQueueFailure
          ⟨[], 2000, 0, 0, 0, none, []⟩ 0 9 ⟨some 429, none, "err"⟩).1)
        100 ⟨"get", "https://api.chess.com/pub/player/alice/games/archives"⟩
        "gameArchives" 1).1
      = .rejectedRateLimited 5 := by
  have h := (C8_rateLimit_window ⟨[], 2000, 0, 0, 0, none, []⟩ 0 100 9 1
    ⟨some 429, none, "err"⟩ ⟨"get", "https://api.chess.com/pub/player/alice/games/archives"⟩
    "gameArchives" (by decide)).1 (by decide) (by decide)
  exact h.1.trans (by decide)

/-! ## C9 — what happens to queued requests when a 410/429 strikes -/

/-- The client state used by the C9 counterexample: one request (caller 7)
queued but not yet dispatched. -/
def exQState : ChessComApiQueue.QState :=
  { queue := [7], requestDelay := 2000, lastRequestTime := 0,
    consecutiveSuccesses := 3, consecutiveFailures := 0,
    rateLimitedUntil := none, cache := [] }

/-- **C9 counterexample.**  With caller 7 queued and undispatched, a 429 on
the in-flight request 9 clears the queue but settles only request 9's own
promise: no settlement (in particular no rejection) is ever produced for
caller 7, whose promise therefore never settles — contradicting the claim
that every queued request is rejected with a `RateLimited` error. -/
theorem C9_counterexample :
    (ChessComApiQueue.processQueueFailure exQState 0 9
        ⟨some 429, none, "Request failed with status code 429"⟩).1.queue = [] ∧
    (ChessComApiQueue.processQueueFailure exQState 0 9
        ⟨some 429, none, "Request failed with status code 429"⟩).2
      = [⟨9, true⟩] ∧
    ((ChessComApiQueue.processQueueFailure exQState 0 9
        ⟨some 429, none, "Request failed with status code 429"⟩).2.filter
      (fun s => s.caller = 7)) = [] := by
  exact ⟨by decide, by decide, by decide⟩

/-- **C9 (amended).** When a dispatched request fails with HTTP 410/429 the
client enters the 5-minute rate-limit window, doubles its inter-request delay
capped at 10 s, and discards every queued-but-undispatched request by
clearing the queue — without rejecting them: the only promise settled is the
failing in-flight request's own rejection, so queued callers are left
unsettled. -/
theorem C9_rateLimit_discard (st : ChessComApiQueue.QState) (now inflight : ℤ)
    (e : ChessComApiQueue.JsError) (he : ChessComApiQueue.isRateLimitError e = true) :
    (ChessComApiQueue.processQueueFailure st now inflight e).1.rateLimitedUntil
      = some (now + ChessComApiQueue.rateLimitDurationMs) ∧
    (ChessComApiQueue.processQueueFailure st now inflight e).1.requestDelay
      = min 10000 (st.requestDelay * 2) ∧
    (ChessComApiQueue.processQueueFailure st now inflight e).1.queue = [] ∧
    (ChessComApiQueue.processQueueFailure st now inflight e).2 = [⟨inflight, true⟩] := by
  simp [ChessComApiQueue.processQueueFailure, ChessComApiQueue.setRateLimit, he]

/-- Witness for C9 (amended) at the concrete counterexample state. -/
theorem C9_witness :
    (ChessComApiQueue.processQueueFailure exQState 4 9
        ⟨some 410, none, "err"⟩).1.requestDelay = 4000 ∧
    (ChessComApiQueue.processQueueFailure exQState 4 9
        ⟨some 410, none, "err"⟩).1.rateLimitedUntil = some 300004 := by
  have h := C9_rateLimit_discard exQState 4 9 ⟨some 410, none, "err"⟩ (by decide)
  exact ⟨h.2.1.trans (by norm_num [exQState]), h.1⟩

/-! ## C7 — provider failure during deposit initiation -/

/-- Store used by the deposit-failure scenario: the challenge exists, no
payments yet. -/
def exDb7 : Db :=
  { payments := [], challenges := [exChallenge],
    users := [exUserA, exUserB], ongoing_matches := [] }

/-- **C7.** When the provider call of `initiateDeposit` fails with an HTTP
error response, the failure *is* caught and returned as a structured
`{success: false}` result — but the pre-created pending Payment row is *not*
marked `failed` and the error payload is *not* stored in its notes: the
catch block's `UPDATE` references `requestId`, which is out of scope there
(it is `const`-declared inside the `try` block), so a `ReferenceError` is
raised and swallowed by the inner catch, leaving the row `pending`.  This
contradicts the claim (and the comment in the source) that the Payment is
marked `failed`; evaluated here at a concrete failing input. -/
theorem C7_failed_deposit_stays_pending :
    (PaymentService.initiateDeposit exDb7 (some "0712345678") (.num 50) (.num 7) (.num 1)
        (.httpError "insufficient funds") 5).res.success = false ∧
    (PaymentService.initiateDeposit exDb7 (some "0712345678") (.num 50) (.num 7) (.num 1)
        (.httpError "insufficient funds") 5).db.payments.map Payment.status = ["pending"] ∧
    (PaymentService.initiateDeposit exDb7 (some "0712345678") (.num 50) (.num 7) (.num 1)
        (.httpError "insufficient funds") 5).db.payments.map Payment.notes = [none] ∧
    (PaymentService.initiateDeposit exDb7 (some "0712345678") (.num 50) (.num 7) (.num 1)
        (.httpError "insufficient funds") 5).calls.map ProviderCall.request_id
      = ["DEP_1_7_5"] := by
  decide

/-! ## C6 — the partial-payment sweep and its refund path -/

/-- The challenger's completed 50 KES deposit. -/
def exDeposit7 : Payment :=
  { id := 1, user_id := some 7, challenge_id := some 1,
    phone_number := some "+254700000001", amount := 50,
    transaction_type := "deposit", status := "completed",
    request_id := "DEP_1_7_100", transaction_id := some "TX1", opponent_id := some 8,
    notes := none, callback_data := none, updated_at := 0 }

/-- The opponent's deposit, still pending. -/
def exDeposit8 : Payment :=
  { id := 2, user_id := some 8, challenge_id := some 1,
    phone_number := some "+254700000002", amount := 50,
    transaction_type := "deposit", status := "pending",
    request_id := "DEP_1_8_101", transaction_id := none, opponent_id := some 7,
    notes := none, callback_data := none, updated_at := 0 }

/-- Store for the partial-payment timeout scenario: exactly one completed
deposit, accepted at time 0. -/
def exDb6 : Db :=
  { payments := [exDeposit7, exDeposit8], challenges := [exChallenge],
    users := [exUserA, exUserB], ongoing_matches := [] }

/-- **C6.** A sweep at 6 minutes finds the challenge with exactly one
completed deposit and takes the partial-payment path: the challenge is
cancelled, still-pending rows are cancelled, and both players receive the
differentiated notifications — but the refund never happens.  The sweeper
calls `paymentService.initiateWithdrawal(phoneNumber, amount, requestId)`
with three arguments, so the request-id string lands in the `userId`
parameter; `parseInt` of it is `NaN`, the service throws internally and
returns `{success: false}`, which is never checked: no provider call is
made, no balance is credited, the freshly inserted `withdrawal` row is
immediately re-cancelled by the same sweep, and the paying player is still
told a refund is on its way. -/
theorem C6_partial_timeout_refund_is_lost :
    (PaymentTimeoutChecker.processExpiredChallenge exDb6 exChallenge 360001).calls = [] ∧
    (PaymentTimeoutChecker.processExpiredChallenge exDb6 exChallenge 360001).events
      = [Ev.refundInitiated 7 50,
         Ev.challengeExpired 7 1 "opponent_no_payment" true,
         Ev.challengeExpired 8 1 "payment_timeout" false] ∧
    (PaymentTimeoutChecker.processExpiredChallenge exDb6 exChallenge 360001).db.challenges.map
        Challenge.status = ["cancelled"] ∧
    (PaymentTimeoutChecker.processExpiredChallenge exDb6 exChallenge 360001).db.payments.map
        Payment.status = ["completed", "cancelled", "cancelled"] ∧
    (PaymentTimeoutChecker.processExpiredChallenge exDb6 exChallenge 360001).db.payments.map
        Payment.transaction_type = ["deposit", "deposit", "withdrawal"] ∧
    (PaymentTimeoutChecker.processExpiredChallenge exDb6 exChallenge 360001).db.users.map
        User.balance = [0, 0] := by
  decide

/-! ## C2 — settlement after `result_checked = true` -/

/-- A zero-stake challenge variant (isolates the settlement write from the
payment path). -/
def exChallenge0 : Challenge :=
  { exChallenge with bet_amount := 0 }

/-- An ongoing match that has already been settled: `result_checked = true`
with a recorded winner. -/
def exSettledMatch : OngoingMatch :=
  { id := 1, challenge_id := 1, result_checked := true, winner_id := some 7,
    result := some "checkmated", match_result := none, notes := none,
    completed_at := some 50 }

/-- Store for the late-firing second check scenario. -/
def exDb2 : Db :=
  { payments := [], challenges := [exChallenge0],
    users := [exUserA, exUserB], ongoing_matches := [exSettledMatch] }

/-- **C2 counterexample.**  `processMatchResult` — the step a late-firing or
duplicate timer chain runs when its poll finds a result — neither filters its
match query on `result_checked` nor guards its `UPDATE` with it: applied to a
match whose `result_checked` is already `true` (winner 7, "checkmated"), it
overwrites the winner/result fields again (winner 8, "resigned").  This
refutes the claim that once `result_checked = true` no subsequent poll step
mutates the winner/result fields. -/
theorem C2_counterexample :
    exSettledMatch.result_checked = true ∧
    exSettledMatch.winner_id = some 7 ∧
    ((PerMatchResultChecker.processMatchResult exDb2 1
        ⟨"bob", "resigned", "url"⟩ 99).db.ongoing_matches.map OngoingMatch.winner_id
      = [some 8]) ∧
    ((PerMatchResultChecker.processMatchResult exDb2 1
        ⟨"bob", "resigned", "url"⟩ 99).db.ongoing_matches.map OngoingMatch.result
      = [some "resigned"]) := by
  decide

/-- Helper: a chain that is no longer active performs no settlements and
never reactivates. -/
theorem runChain_inactive (l : List PerMatchResultChecker.PollOutcome)
    (s : PerMatchResultChecker.ChainState) (h : s.active = false) :
    PerMatchResultChecker.runChain s l = (s, 0) := by
  induction l with
  | nil => rfl
  | cons o rest ih =>
    have hstep : PerMatchResultChecker.checkStep s o = (s, 0) := by
      simp [PerMatchResultChecker.checkStep, h]
    simp [PerMatchResultChecker.runChain, hstep, ih]

/-- Helper: one firing settles at most once, and a firing that settles
deactivates the chain. -/
theorem checkStep_spec (s : PerMatchResultChecker.ChainState)
    (o : PerMatchResultChecker.PollOutcome) :
    (PerMatchResultChecker.checkStep s o).2 = 0 ∨
    ((PerMatchResultChecker.checkStep s o).2 = 1 ∧
      (PerMatchResultChecker.checkStep s o).1.active = false) := by
  rcases o <;> simp [PerMatchResultChecker.checkStep] <;> split_ifs <;> simp

/-- **C2 (amended).**  Within a single `checkMatchResult` timer chain,
settlement happens at most once — the chain stops (`stopCheckingMatch`) as
soon as it settles, whatever sequence of poll outcomes it observes.  (The
claim's stronger guarantee fails: the settlement write itself is not guarded
by `result_checked`, so a second, independently started timer chain for the
same match — `startCheckingMatch` does not clear an existing timer — mutates
the winner/result fields again, as the counterexample shows.) -/
theorem C2_at_most_one_settlement_per_chain
    (l : List PerMatchResultChecker.PollOutcome)
    (s : PerMatchResultChecker.ChainState) :
    (PerMatchResultChecker.runChain s l).2 ≤ 1 := by
  induction l generalizing s with
  | nil => simp [PerMatchResultChecker.runChain]
  | cons o rest ih =>
    rcases checkStep_spec s o with h0 | ⟨h1, hinact⟩
    · have : (PerMatchResultChecker.runChain s (o :: rest)).2
          = (PerMatchResultChecker.runChain (PerMatchResultChecker.checkStep s o).1 rest).2 := by
        simp [PerMatchResultChecker.runChain, h0]
      rw [this]
      exact ih _
    · have hrest := runChain_inactive rest _ hinact
      simp [PerMatchResultChecker.runChain, h1, hrest]

/-! ## C3 — payment-status monotonicity -/

/-- A failed deposit row for the monotonicity counterexample. -/
def exFailedDeposit : Payment :=
  { id := 1, user_id := some 8, challenge_id := some 1,
    phone_number := some "+254700000002", amount := 50,
    transaction_type := "deposit", status := "failed",
    request_id := "DEP_1_8_101", transaction_id := none, opponent_id := some 7,
    notes := none, callback_data := none, updated_at := 0 }

/-- Store for the monotonicity counterexample. -/
def exDb3 : Db :=
  { payments := [exFailedDeposit], challenges := [exChallenge],
    users := [exUserA, exUserB], ongoing_matches := [] }

/-- **C3 counterexample.**  The timeout sweep's cancellation step runs
`UPDATE payments SET status = 'cancelled' WHERE challenge_id = $1 AND status
IN ('pending', 'failed')`: it moves a `failed` Payment to `cancelled`,
contradicting the claim that a completed or failed Payment is never moved to
any other status. -/
theorem C3_counterexample :
    exFailedDeposit.status = "failed" ∧
    (PaymentTimeoutChecker.handleFullExpiry exDb3 exChallenge 99).db.payments.map
        Payment.status = ["cancelled"] := by
  decide

/-! ## Characterizations of `PaymentService.initiateWithdrawal` -/

@[simp] theorem jsParseInt_num_intCast (n : ℤ) : jsParseInt (.num (n : ℚ)) = some n := by
  simp [jsParseInt]

/-- A phone whose normalization is truthy normalizes to some non-empty
string. -/
theorem normalized_some_ne (phone : Option String)
    (hp : jsTruthyS (normalizePhoneNumber phone) = true) :
    ∃ ph, normalizePhoneNumber phone = some ph ∧ ph ≠ "" := by
  rcases h : normalizePhoneNumber phone with _ | ph
  · rw [h] at hp
    exact absurd hp (by decide)
  · rw [h] at hp
    refine ⟨ph, rfl, ?_⟩
    simpa [jsTruthyS] using hp

/-- A phone whose normalization is truthy is itself truthy (a falsy input
normalizes to `null`). -/
theorem raw_truthy_of_normalized (phone : Option String)
    (hp : jsTruthyS (normalizePhoneNumber phone) = true) :
    jsTruthyS phone = true := by
  by_cases h : jsTruthyS phone = true
  · exact h
  · rw [show normalizePhoneNumber phone = none by simp [normalizePhoneNumber, h]] at hp
    exact absurd hp (by decide)

/-- With a truthy phone and integer ids, `initiateWithdrawal` inserts exactly
one Payment row carrying the full amount, owned by the target user, of type
`refund` for refunds and `balance_credit`/`payout` otherwise. -/
theorem initiateWithdrawal_insert (db : Db) (phone : Option String) (a : ℚ)
    (uid cid : ℤ) (r : Bool) (now : ℤ)
    (hp : jsTruthyS (normalizePhoneNumber phone) = true) :
    ∃ row : Payment,
      (PaymentService.initiateWithdrawal db phone a (.num (uid : ℚ)) (.num (cid : ℚ))
          r now).db.payments = db.payments ++ [row] ∧
      row.amount = a ∧ row.user_id = some uid ∧
      row.transaction_type
        = (if r then "refund" else if a < 10 then "balance_credit" else "payout") := by
  obtain ⟨ph, hph, hne⟩ := normalized_some_ne phone hp
  have htr : jsTruthyS (some ph) = true := by simp [jsTruthyS, hne]
  simp only [PaymentService.initiateWithdrawal, jsParseInt_num_intCast, hph, htr, not_true,
    eq_self_iff_true, if_false, Option.getD_some]
  by_cases hlt : a < 10
  · simp only [if_pos hlt]
    exact ⟨_, rfl, rfl, rfl, by simp [hlt]⟩
  · simp only [if_neg hlt]
    exact ⟨_, rfl, rfl, rfl, by simp [hlt]⟩

/-- The provider is called iff the amount reaches the 10 KES minimum. -/
theorem initiateWithdrawal_calls_iff (db : Db) (phone : Option String) (a : ℚ)
    (uid cid : ℤ) (r : Bool) (now : ℤ)
    (hp : jsTruthyS (normalizePhoneNumber phone) = true) :
    ((PaymentService.initiateWithdrawal db phone a (.num (uid : ℚ)) (.num (cid : ℚ))
        r now).calls = [] ↔ a < 10) := by
  obtain ⟨ph, hph, hne⟩ := normalized_some_ne phone hp
  have htr : jsTruthyS (some ph) = true := by simp [jsTruthyS, hne]
  simp only [PaymentService.initiateWithdrawal, jsParseInt_num_intCast, hph, htr, not_true,
    eq_self_iff_true, if_false, Option.getD_some]
  by_cases hlt : a < 10
  · simp [hlt]
  · simp [hlt]

/-- The balance-credit flag is set iff the amount is below the minimum. -/
theorem initiateWithdrawal_res (db : Db) (phone : Option String) (a : ℚ)
    (uid cid : ℤ) (r : Bool) (now : ℤ)
    (hp : jsTruthyS (normalizePhoneNumber phone) = true) :
    (PaymentService.initiateWithdrawal db phone a (.num (uid : ℚ)) (.num (cid : ℚ))
        r now).res = ⟨true, decide (a < 10)⟩ := by
  obtain ⟨ph, hph, hne⟩ := normalized_some_ne phone hp
  have htr : jsTruthyS (some ph) = true := by simp [jsTruthyS, hne]
  simp only [PaymentService.initiateWithdrawal, jsParseInt_num_intCast, hph, htr, not_true,
    eq_self_iff_true, if_false, Option.getD_some]
  by_cases hlt : a < 10
  · simp [hlt]
  · simp [hlt]

/-- An `undefined` (or `null`) `userId` argument makes `initiateWithdrawal`
throw on validation and return a structured failure with no effect. -/
theorem initiateWithdrawal_undef_userId (db : Db) (phone : Option String) (a : ℚ)
    (cid : JsVal) (r : Bool) (now : ℤ) :
    PaymentService.initiateWithdrawal db phone a .undefJs cid r now
      = ⟨⟨false, false⟩, db, [], []⟩ := by
  simp [PaymentService.initiateWithdrawal, jsParseInt]

/-! ## C4 — the 10 KES threshold, in the service and in the safety net -/

/-- A 10 KES challenge awaiting auto-refund. -/
def exChallenge10 : Challenge :=
  { exChallenge with bet_amount := 10 }

/-- An unresolved ongoing match for the 10 KES challenge. -/
def exMatch4 : OngoingMatch :=
  { id := 1, challenge_id := 1, result_checked := false, winner_id := none,
    result := none, match_result := none, notes := none, completed_at := none }

/-- Store for the threshold-boundary counterexample. -/
def exDb4 : Db :=
  { payments := [], challenges := [exChallenge10],
    users := [exUserA, exUserB], ongoing_matches := [exMatch4] }

/-- **C4 counterexample.**  At the boundary amount `a = 10` the claim demands
the provider path for every refund/payout, including the auto-refund safety
net.  `initiateWithdrawal` does call the provider at 10 (`10 < 10` is false),
but the safety net `handleNoResultFound` tests `betAmount > 10` and therefore
credits both wallets at exactly 10: no provider call, two completed `refund`
rows instead. -/
theorem C4_counterexample :
    ((PaymentService.initiateWithdrawal exDb4 (some "+254700000001") 10 (.num 7) (.num 1)
        true 9).res = ⟨true, false⟩) ∧
    ((PaymentService.initiateWithdrawal exDb4 (some "+254700000001") 10 (.num 7) (.num 1)
        true 9).calls ≠ []) ∧
    (PerMatchResultChecker.handleNoResultFound exDb4 1 9).calls = [] ∧
    ((PerMatchResultChecker.handleNoResultFound exDb4 1 9).db.payments.map
        Payment.transaction_type = ["refund", "refund"]) ∧
    ((PerMatchResultChecker.handleNoResultFound exDb4 1 9).db.payments.map
        Payment.status = ["completed", "completed"]) := by
  decide

/-- **C4 (amended).**  For `initiateWithdrawal` the claim holds as stated:
the balance-credit path is taken iff `a < 10` and the provider path iff
`a ≥ 10` (10.00 → provider).  The auto-refund safety net, however, uses a
strict threshold: it refunds via the provider iff `a > 10` and credits
balances for `a ≤ 10`, so at the boundary `a = 10` it takes the
balance-credit path. -/
theorem C4_threshold_routing (db : Db) (phone : Option String) (a : ℚ)
    (uid cid mid now : ℤ) (r : Bool) (om : OngoingMatch) (ch : Challenge)
    (hp : jsTruthyS (normalizePhoneNumber phone) = true)
    (hom : db.ongoing_matches.find? (fun o => o.id = mid) = some om)
    (hch : db.challenges.find? (fun c => c.id = om.challenge_id) = some ch)
    (hbet : ch.bet_amount = a) (ha : a ≠ 0)
    (hph1 : jsTruthyS (normalizePhoneNumber ch.challenger_phone) = true)
    (_hph2 : jsTruthyS (normalizePhoneNumber ch.opponent_phone) = true) :
    ((PaymentService.initiateWithdrawal db phone a (.num (uid : ℚ)) (.num (cid : ℚ))
        r now).res.credited_to_balance = true ↔ a < 10) ∧
    ((PaymentService.initiateWithdrawal db phone a (.num (uid : ℚ)) (.num (cid : ℚ))
        r now).calls ≠ [] ↔ 10 ≤ a) ∧
    ((PerMatchResultChecker.handleNoResultFound db mid now).calls ≠ [] ↔ 10 < a) := by
  refine ⟨?_, ?_, ?_⟩
  · rw [initiateWithdrawal_res db phone a uid cid r now hp]
    by_cases hlt : a < 10 <;> simp [hlt]
  · rw [← not_lt]
    exact not_congr (initiateWithdrawal_calls_iff db phone a uid cid r now hp)
  · simp only [PerMatchResultChecker.handleNoResultFound, hom, hch, hbet, if_neg ha]
    by_cases h10 : 10 < a
    · simp only [if_pos h10]
      have hnlt : ¬ a < 10 := by linarith
      have h1 := initiateWithdrawal_calls_iff db ch.challenger_phone a ch.challenger
        om.challenge_id true now hph1
      constructor
      · intro _
        exact h10
      · intro _
        intro hnil
        rcases List.append_eq_nil.mp hnil with ⟨h1nil, _⟩
        exact hnlt (h1.mp h1nil)
    · simp [h10]

/-- Witness for C4 (amended) at the boundary store: `a = 10` goes to the
provider in `initiateWithdrawal` but not in the safety net. -/
theorem C4_witness :
    ((PaymentService.initiateWithdrawal exDb4 (some "+254700000001") 10 (.num (7 : ℚ))
        (.num (1 : ℚ)) true 9).calls ≠ []) ∧
    ¬ ((PerMatchResultChecker.handleNoResultFound exDb4 1 9).calls ≠ []) := by
  have h := C4_threshold_routing exDb4 (some "+254700000001") 10 7 1 1 9 true
    exMatch4 exChallenge10 (by decide) (by decide) (by decide) (by decide) (by decide)
    (by decide) (by decide)
  exact ⟨h.2.1.mpr (by decide), fun hne => absurd (h.2.2.mp hne) (by decide)⟩

/-! ## C5 — settlement conservation -/

/-- Draw-classified (or unrecognized) results insert exactly two `refund`
rows of one stake each, one per player. -/
theorem processMatchResult_refund_case (db : Db) (mr : PaymentService.PaymentResult)
    (m : PaymentService.JoinedMatch) (now : ℤ)
    (hbet : 0 < m.bet_amount)
    (h1 : jsTruthyS (normalizePhoneNumber m.challenger_phone) = true)
    (h2 : jsTruthyS (normalizePhoneNumber m.opponent_phone) = true)
    (hcase : mr.result ∈ PaymentService.drawResults ∨
      (mr.result ≠ "win" ∧ mr.result ∉ PaymentService.lossResults)) :
    ((PaymentService.processMatchResult db mr m now).db.payments.drop
        db.payments.length).map Payment.amount = [m.bet_amount, m.bet_amount] ∧
    ((PaymentService.processMatchResult db mr m now).db.payments.drop
        db.payments.length).map Payment.user_id = [some m.challenger, some m.opponent] ∧
    ((PaymentService.processMatchResult db mr m now).db.payments.drop
        db.payments.length).map Payment.transaction_type = ["refund", "refund"] := by
  have hble : ¬ m.bet_amount ≤ 0 := not_le.mpr hbet
  have hgd : ¬¬(jsTruthyS m.challenger_phone = true ∧ jsTruthyS m.opponent_phone = true) :=
    fun hcon => hcon ⟨raw_truthy_of_normalized _ h1, raw_truthy_of_normalized _ h2⟩
  obtain ⟨r1, hr1p, hr1a, hr1u, hr1t⟩ := initiateWithdrawal_insert db m.challenger_phone
    m.bet_amount m.challenger m.challenge_id true now h1
  obtain ⟨r2, hr2p, hr2a, hr2u, hr2t⟩ := initiateWithdrawal_insert
    (PaymentService.initiateWithdrawal db m.challenger_phone m.bet_amount
      (.num (m.challenger : ℚ)) (.num (m.challenge_id : ℚ)) true now).db
    m.opponent_phone m.bet_amount m.opponent m.challenge_id true now h2
  have hpay : (PaymentService.processMatchResult db mr m now).db.payments
      = db.payments ++ [r1, r2] := by
    by_cases hd : mr.result ∈ PaymentService.drawResults
    · simp only [PaymentService.processMatchResult, if_neg hble,
        if_neg hgd, if_pos hd]
      rw [hr2p, hr1p, List.append_assoc]
      rfl
    · rcases hcase with hd2 | ⟨hw, hl⟩
      · exact absurd hd2 hd
      · simp only [PaymentService.processMatchResult, if_neg hble,
          if_neg hgd, if_neg hd, if_neg hw, if_neg hl]
        rw [hr2p, hr1p, List.append_assoc]
        rfl
  rw [hpay, drop_len_append]
  exact ⟨by simp [hr1a, hr2a], by simp [hr1u, hr2u], by simp [hr1t, hr2t]⟩

/-- A `win` result with an identified winner inserts exactly one row of twice
the stake, owned by the winner. -/
theorem processMatchResult_win_case (db : Db) (mr : PaymentService.PaymentResult)
    (m : PaymentService.JoinedMatch) (now : ℤ) (w : ℤ)
    (hbet : 0 < m.bet_amount)
    (h1 : jsTruthyS (normalizePhoneNumber m.challenger_phone) = true)
    (h2 : jsTruthyS (normalizePhoneNumber m.opponent_phone) = true)
    (hw : mr.result = "win") (hwid : mr.winner_id = some w) :
    ((PaymentService.processMatchResult db mr m now).db.payments.drop
        db.payments.length).map Payment.amount = [m.bet_amount * 2] ∧
    ((PaymentService.processMatchResult db mr m now).db.payments.drop
        db.payments.length).map Payment.user_id = [some w] := by
  have hble : ¬ m.bet_amount ≤ 0 := not_le.mpr hbet
  have hgd : ¬¬(jsTruthyS m.challenger_phone = true ∧ jsTruthyS m.opponent_phone = true) :=
    fun hcon => hcon ⟨raw_truthy_of_normalized _ h1, raw_truthy_of_normalized _ h2⟩
  have hnd : mr.result ∉ PaymentService.drawResults := by
    rw [hw]; decide
  have hphw : jsTruthyS (normalizePhoneNumber
      (if (some w : Option ℤ) = some m.challenger then m.challenger_phone
        else m.opponent_phone)) = true := by
    by_cases hc : (some w : Option ℤ) = some m.challenger <;> simp [hc, h1, h2]
  obtain ⟨r, hrp, hra, hru, hrt⟩ := initiateWithdrawal_insert db
    (if (some w : Option ℤ) = some m.challenger then m.challenger_phone
      else m.opponent_phone)
    (m.bet_amount * 2) w m.challenge_id false now hphw
  have hpay : (PaymentService.processMatchResult db mr m now).db.payments
      = db.payments ++ [r] := by
    simp only [PaymentService.processMatchResult, if_neg hble,
      if_neg hgd, if_neg hnd, if_pos hw, hwid, idToJs]
    rw [← hrp]
  rw [hpay, drop_len_append]
  exact ⟨by simp [hra], by simp [hru]⟩

/-- A loser-identifying decisive result inserts exactly one row of twice the
stake, owned by the player who is not the loser. -/
theorem processMatchResult_loss_case (db : Db) (mr : PaymentService.PaymentResult)
    (m : PaymentService.JoinedMatch) (now : ℤ)
    (hbet : 0 < m.bet_amount)
    (h1 : jsTruthyS (normalizePhoneNumber m.challenger_phone) = true)
    (h2 : jsTruthyS (normalizePhoneNumber m.opponent_phone) = true)
    (hl : mr.result ∈ PaymentService.lossResults) :
    ((PaymentService.processMatchResult db mr m now).db.payments.drop
        db.payments.length).map Payment.amount = [m.bet_amount * 2] ∧
    ((PaymentService.processMatchResult db mr m now).db.payments.drop
        db.payments.length).map Payment.user_id
      = [some (if mr.loser_id = some m.challenger then m.opponent else m.challenger)] := by
  have hble : ¬ m.bet_amount ≤ 0 := not_le.mpr hbet
  have hgd : ¬¬(jsTruthyS m.challenger_phone = true ∧ jsTruthyS m.opponent_phone = true) :=
    fun hcon => hcon ⟨raw_truthy_of_normalized _ h1, raw_truthy_of_normalized _ h2⟩
  have hnd : mr.result ∉ PaymentService.drawResults := by
    simp only [PaymentService.lossResults, List.mem_cons, List.not_mem_nil, or_false] at hl
    rcases hl with h | h | h | h | h | h <;> rw [h] <;> decide
  have hnw : ¬ mr.result = "win" := by
    simp only [PaymentService.lossResults, List.mem_cons, List.not_mem_nil, or_false] at hl
    rcases hl with h | h | h | h | h | h <;> rw [h] <;> decide
  have hphw : jsTruthyS (normalizePhoneNumber
      (if mr.loser_id = some m.challenger then m.opponent_phone else m.challenger_phone))
        = true := by
    by_cases hc : mr.loser_id = some m.challenger <;> simp [hc, h1, h2]
  obtain ⟨r, hrp, hra, hru, hrt⟩ := initiateWithdrawal_insert db
    (if mr.loser_id = some m.challenger then m.opponent_phone else m.challenger_phone)
    (m.bet_amount * 2)
    (if mr.loser_id = some m.challenger then m.opponent else m.challenger)
    m.challenge_id false now hphw
  have hpay : (PaymentService.processMatchResult db mr m now).db.payments
      = db.payments ++ [r] := by
    simp only [PaymentService.processMatchResult, if_neg hble,
      if_neg hgd, if_neg hnd, if_neg hnw, if_pos hl]
    rw [← hrp]
  rw [hpay, drop_len_append]
  exact ⟨by simp [hra], by simp [hru]⟩

/-- **C5.** Settlement conservation for `PaymentService.processMatchResult`
on a challenge whose stake `s = bet_amount` is positive and whose phone
numbers are on file: a draw-classified (or unrecognized) result refunds each
player exactly `s`; a decisive result initiates exactly one payout of exactly
`2s` to the winner (for `win` results the winner is `winner_id`; for
loser-class results, whichever player is not `loser_id`); and in every case —
including degenerate ones where an unidentifiable winner aborts the payout —
the total of all money movements initiated never exceeds `2s`. -/
theorem C5_settlement_conservation (db : Db) (mr : PaymentService.PaymentResult)
    (m : PaymentService.JoinedMatch) (now : ℤ)
    (hbet : 0 < m.bet_amount)
    (h1 : jsTruthyS (normalizePhoneNumber m.challenger_phone) = true)
    (h2 : jsTruthyS (normalizePhoneNumber m.opponent_phone) = true) :
    (mr.result ∈ PaymentService.drawResults ∨
        (mr.result ≠ "win" ∧ mr.result ∉ PaymentService.lossResults) →
      ((PaymentService.processMatchResult db mr m now).db.payments.drop
          db.payments.length).map Payment.amount = [m.bet_amount, m.bet_amount] ∧
      ((PaymentService.processMatchResult db mr m now).db.payments.drop
          db.payments.length).map Payment.user_id
        = [some m.challenger, some m.opponent] ∧
      ((PaymentService.processMatchResult db mr m now).db.payments.drop
          db.payments.length).map Payment.transaction_type = ["refund", "refund"]) ∧
    (∀ w : ℤ, mr.result = "win" → mr.winner_id = some w →
      ((PaymentService.processMatchResult db mr m now).db.payments.drop
          db.payments.length).map Payment.amount = [m.bet_amount * 2] ∧
      ((PaymentService.processMatchResult db mr m now).db.payments.drop
          db.payments.length).map Payment.user_id = [some w]) ∧
    (mr.result ∈ PaymentService.lossResults →
      ((PaymentService.processMatchResult db mr m now).db.payments.drop
          db.payments.length).map Payment.amount = [m.bet_amount * 2] ∧
      ((PaymentService.processMatchResult db mr m now).db.payments.drop
          db.payments.length).map Payment.user_id
        = [some (if mr.loser_id = some m.challenger then m.opponent else m.challenger)]) ∧
    (((PaymentService.processMatchResult db mr m now).db.payments.drop
        db.payments.length).map Payment.amount).sum ≤ 2 * m.bet_amount := by
  refine ⟨processMatchResult_refund_case db mr m now hbet h1 h2,
    fun w hw hwid => processMatchResult_win_case db mr m now w hbet h1 h2 hw hwid,
    processMatchResult_loss_case db mr m now hbet h1 h2, ?_⟩
  by_cases hd : mr.result ∈ PaymentService.drawResults
  · have h := (processMatchResult_refund_case db mr m now hbet h1 h2 (Or.inl hd)).1
    rw [h]
    simp only [List.sum_cons, List.sum_nil, add_zero]
    linarith
  · by_cases hw : mr.result = "win"
    · rcases hwid : mr.winner_id with _ | w
      · -- no identifiable winner: validation aborts the payout, nothing moves
        have hble : ¬ m.bet_amount ≤ 0 := not_le.mpr hbet
        have hgd : ¬¬(jsTruthyS m.challenger_phone = true ∧
            jsTruthyS m.opponent_phone = true) :=
          fun hcon => hcon ⟨raw_truthy_of_normalized _ h1, raw_truthy_of_normalized _ h2⟩
        have hpay : (PaymentService.processMatchResult db mr m now).db.payments
            = db.payments := by
          simp only [PaymentService.processMatchResult, if_neg hble,
            if_neg hgd, if_neg hd, if_pos hw, hwid, idToJs,
            initiateWithdrawal_undef_userId]
        rw [hpay, List.drop_length]
        simp only [List.map_nil, List.sum_nil]
        linarith
      · have h := (processMatchResult_win_case db mr m now w hbet h1 h2 hw hwid).1
        rw [h]
        simp only [List.sum_cons, List.sum_nil, add_zero]
        linarith
    · by_cases hl : mr.result ∈ PaymentService.lossResults
      · have h := (processMatchResult_loss_case db mr m now hbet h1 h2 hl).1
        rw [h]
        simp only [List.sum_cons, List.sum_nil, add_zero]
        linarith
      · have h := (processMatchResult_refund_case db mr m now hbet h1 h2
          (Or.inr ⟨hw, hl⟩)).1
        rw [h]
        simp only [List.sum_cons, List.sum_nil, add_zero]
        linarith

/-- The joined match row used by the C5 witness: a 50 KES stake. -/
def exMatchJ : PaymentService.JoinedMatch :=
  { id := 1, challenge_id := 1, bet_amount := 50, challenger := 7, opponent := 8,
    platform := "chess.com", challenger_phone := some "+254700000001",
    opponent_phone := some "+254700000002", challenger_username := some "alice",
    opponent_username := some "bob" }

/-- Witness for C5: a concrete stalemate refunds both players 50 each, and a
concrete checkmate pays the non-loser 100. -/
theorem C5_witness :
    (((PaymentService.processMatchResult exDb7 ⟨"stalemate", none, none⟩
        exMatchJ 5).db.payments.drop exDb7.payments.length).map Payment.amount
      = [50, 50]) ∧
    (((PaymentService.processMatchResult exDb7 ⟨"checkmated", some 7, some 8⟩
        exMatchJ 5).db.payments.drop exDb7.payments.length).map Payment.user_id
      = [some 7]) := by
  constructor
  · have h := (C5_settlement_conservation exDb7 ⟨"stalemate", none, none⟩ exMatchJ 5
      (by decide) (by decide) (by decide)).1 (Or.inl (by decide))
    exact h.1.trans (by decide)
  · have h := (C5_settlement_conservation exDb7 ⟨"checkmated", some 7, some 8⟩ exMatchJ 5
      (by decide) (by decide) (by decide)).2.2.1 (by decide)
    exact h.2.trans (by decide)

/-! ## Helpers for the callback and sweep status lemmas -/

theorem map_id_of_forall {α : Type} (l : List α) (f : α → α) (h : ∀ x ∈ l, f x = x) :
    l.map f = l := by
  induction l with
  | nil => rfl
  | cons x rest ih =>
    simp only [List.map_cons, h x (List.mem_cons_self x rest)]
    rw [ih (fun y hy => h y (List.mem_cons_of_mem x hy))]

theorem forall2_map_self {α : Type} (P : α → α → Prop) (f : α → α)
    (h : ∀ x, P x (f x)) : ∀ l : List α, List.Forall₂ P l (l.map f)
  | [] => List.Forall₂.nil
  | x :: rest => List.Forall₂.cons (h x) (forall2_map_self P f h rest)

theorem take_len_map_append {α β : Type} (l m : List α) (f : α → β) :
    ((l ++ m).map f).take l.length = l.map f := by
  rw [List.map_append]
  have h := List.take_left (l.map f) (m.map f)
  rw [List.length_map] at h
  exact h

/-- Whatever refund route the sweeper takes, it only ever appends rows to
the payments relation (the provider call inside the three-argument
`paymentService.initiateWithdrawal` invocation fails validation and mutates
nothing). -/
theorem processRefund_payments (db : Db) (u : ℤ) (a : ℚ) (cid : ℤ)
    (oid : Option ℤ) (now : ℤ) :
    ∃ tail, (PaymentTimeoutChecker.processRefund db u a cid oid now).db.payments
      = db.payments ++ tail := by
  unfold PaymentTimeoutChecker.processRefund
  by_cases hge : 10 ≤ a
  · simp only [if_pos hge]
    unfold PaymentTimeoutChecker.initiateWithdrawal
    rcases hfind : db.users.find? (fun x => x.id = u) with _ | usr
    · simp only [hfind]
      exact ⟨_, rfl⟩
    · simp only [hfind]
      by_cases hph : jsTruthyS usr.phone = true
      · rw [if_neg (fun hc => hc hph)]
        exact ⟨_, rfl⟩
      · rw [if_pos (by simp [hph])]
        exact ⟨_, rfl⟩
  · simp only [if_neg hge]
    exact ⟨_, rfl⟩

/-- The payments relation is untouched by a callback whose correlation id
cannot be recovered. -/
theorem handleCallback_payments_none (b : PaymentController.CallbackBody) (db : Db)
    (t : ℤ) (hex : PaymentController.extractRequestId b = none) :
    (PaymentController.handleCallback b db t).db.payments = db.payments := by
  simp only [PaymentController.handleCallback, hex]

/-- With a recovered correlation id, the payments relation after
`handleCallback` is exactly the unconditional keyed `UPDATE` applied to every
row. -/
theorem handleCallback_payments_some (b : PaymentController.CallbackBody) (db : Db)
    (t : ℤ) (rid : String) (hex : PaymentController.extractRequestId b = some rid) :
    (PaymentController.handleCallback b db t).db.payments
      = db.payments.map (PaymentController.applyCallbackUpdate b rid t) := by
  simp only [PaymentController.handleCallback, hex]
  split
  · rfl
  · repeat' split
    all_goals rfl

/-- Every webhook delivery is answered with HTTP 200 (the pure model never
reaches the outer catch). -/
theorem handleCallback_code (b : PaymentController.CallbackBody) (db : Db) (t : ℤ) :
    (PaymentController.handleCallback b db t).resp.code = 200 := by
  rcases hex : PaymentController.extractRequestId b with _ | rid
  · simp only [PaymentController.handleCallback, hex]
  · simp only [PaymentController.handleCallback, hex]
    split
    · rfl
    · rfl

/-- Re-applying the keyed update with the same body does not change the
status value a row ended up with. -/
theorem applyCallbackUpdate_status_comp (b : PaymentController.CallbackBody)
    (rid : String) (t1 t2 : ℤ) (p : Payment) :
    (PaymentController.applyCallbackUpdate b rid t2
        (PaymentController.applyCallbackUpdate b rid t1 p)).status
      = (PaymentController.applyCallbackUpdate b rid t1 p).status := by
  by_cases h : p.request_id = rid <;>
    simp [PaymentController.applyCallbackUpdate, h]

/-! ## C1 — callback idempotency -/

/-- **C1 counterexample.**  Delivering the same success webhook twice is not
a no-op: the `UPDATE` is keyed by `request_id` alone (no condition on the
row's current status), so the second delivery matches the row again
(`rowsAffected = 1`), rewrites it (`updated_at`, `callback_data`), and
re-emits the `payment-success` notification — refuting "no row mutated, no
notification re-emitted". -/
theorem C1_counterexample :
    ((PaymentController.handleCallback exBody
        (PaymentController.handleCallback exBody exDb 1).db 2).events
      = [Ev.paymentSuccess 7 (some 1)]) ∧
    ((PaymentController.handleCallback exBody
        (PaymentController.handleCallback exBody exDb 1).db 2).db
      ≠ (PaymentController.handleCallback exBody exDb 1).db) ∧
    ((PaymentController.handleCallback exBody
        (PaymentController.handleCallback exBody exDb 1).db 2).resp.success = true) := by
  decide

/-- **C1 (amended).**  Re-delivering the same webhook changes no Payment's
status *value* (the status a row carries after the second delivery equals the
one it carried after the first), and the second delivery is answered with
HTTP 200; when the recovered id matches no row at all, the store is untouched
and the response is the success-with-no-op.  (The claim's stronger "second
application is a no-op" fails — see the counterexample — because the UPDATE
is conditional only on `request_id`, not on the row's current status.) -/
theorem C1_second_delivery (b : PaymentController.CallbackBody) (db : Db) (t1 t2 : ℤ) :
    ((PaymentController.handleCallback b
        (PaymentController.handleCallback b db t1).db t2).db.payments.map Payment.status
      = (PaymentController.handleCallback b db t1).db.payments.map Payment.status) ∧
    ((PaymentController.handleCallback b
        (PaymentController.handleCallback b db t1).db t2).resp.code = 200) ∧
    (∀ rid, PaymentController.extractRequestId b = some rid →
      (∀ p ∈ db.payments, p.request_id ≠ rid) →
      (PaymentController.handleCallback b db t1).db = db ∧
      (PaymentController.handleCallback b db t1).resp
        = ⟨200, true,
            "Callback received but transaction not found (likely already processed)"⟩) := by
  refine ⟨?_, handleCallback_code b _ t2, ?_⟩
  · rcases hex : PaymentController.extractRequestId b with _ | rid
    · rw [handleCallback_payments_none b _ t2 hex]
    · rw [handleCallback_payments_some b _ t2 rid hex,
        handleCallback_payments_some b db t1 rid hex, List.map_map, List.map_map,
        List.map_map]
      apply List.map_congr_left
      intro p _
      exact applyCallbackUpdate_status_comp b rid t1 t2 p
  · intro rid hex hnone
    have hmap : db.payments.map (PaymentController.applyCallbackUpdate b rid t1)
        = db.payments :=
      map_id_of_forall _ _ (fun p hp => by
        simp [PaymentController.applyCallbackUpdate, hnone p hp])
    have hfil : db.payments.filter (fun p => p.request_id = rid) = [] := by
      rw [List.filter_eq_nil_iff]
      intro p hp
      simp [hnone p hp]
    constructor
    · simp only [PaymentController.handleCallback, hex, hmap, hfil]
      rfl
    · simp only [PaymentController.handleCallback, hex, hmap, hfil]
      rfl

/-- A webhook for a request id that matches no Payment row. -/
def exBodyUnknown : PaymentController.CallbackBody :=
  { originatorRequestId := some "DEP_9_9_9", requestId := none, status := none,
    transactionReference := some "TX9", transactionId := none, message := none,
    description := none, responseMessage := none }

/-- Witness for C1 (amended): an unknown-id webhook on the concrete store is
a success-with-no-op, and a re-delivered success webhook leaves the status
list unchanged. -/
theorem C1_witness :
    ((PaymentController.handleCallback exBodyUnknown exDb 1).db = exDb ∧
      (PaymentController.handleCallback exBodyUnknown exDb 1).resp.success = true) ∧
    ((PaymentController.handleCallback exBody
        (PaymentController.handleCallback exBody exDb 1).db 2).db.payments.map
          Payment.status
      = (PaymentController.handleCallback exBody exDb 1).db.payments.map
          Payment.status) := by
  constructor
  · have h := (C1_second_delivery exBodyUnknown exDb 1 2).2.2 "DEP_9_9_9"
      (by decide) (by decide)
    exact ⟨h.1, by rw [h.2]⟩
  · exact (C1_second_delivery exBody exDb 1 2).1

/-! ## C3 (amended) — what each operation actually does to statuses -/

/-- **C3 (amended).**  The intended monotonicity holds only in part.  The
timeout sweep never modifies a completed or cancelled Payment and any change
it makes sets the row to `cancelled` — but it cancels `failed` rows as well
as `pending` ones (see the counterexample).  The callback reconciler's
update, keyed by `request_id` alone, sets every matching row to the newly
mapped status whatever its current status, so a repeated or late callback can
move a completed or failed row again; a row's status is preserved unless the
callback's id matches it. -/
theorem C3_status_transitions :
    (∀ (db : Db) (ch : Challenge) (now : ℤ),
      List.Forall₂ (fun pOld pNew : Payment =>
          (pNew.status = pOld.status ∨
            (pNew.status = "cancelled" ∧
              (pOld.status = "pending" ∨ pOld.status = "failed"))) ∧
          ((pOld.status = "completed" ∨ pOld.status = "cancelled") → pNew = pOld))
        db.payments
        ((PaymentTimeoutChecker.handleFullExpiry db ch now).db.payments)) ∧
    (∀ (db : Db) (ch : Challenge) (u : ℤ) (a : ℚ) (now : ℤ),
      List.Forall₂ (fun pOld pNew : Payment =>
          (pNew.status = pOld.status ∨
            (pNew.status = "cancelled" ∧
              (pOld.status = "pending" ∨ pOld.status = "failed"))) ∧
          ((pOld.status = "completed" ∨ pOld.status = "cancelled") → pNew = pOld))
        db.payments
        (((PaymentTimeoutChecker.handlePartialPaymentTimeout db ch u a now).db.payments).take
          db.payments.length)) ∧
    (∀ (b : PaymentController.CallbackBody) (db : Db) (t : ℤ),
      List.Forall₂ (fun pOld pNew : Payment =>
          pNew.status = pOld.status ∨
            pNew.status = PaymentController.mapCallbackStatus b)
        db.payments
        ((PaymentController.handleCallback b db t).db.payments)) := by
  have hrow : ∀ (cid : ℤ) (p : Payment),
      ((if p.challenge_id = some cid ∧ (p.status = "pending" ∨ p.status = "failed")
          then { p with status := "cancelled" } else p).status = p.status ∨
        ((if p.challenge_id = some cid ∧ (p.status = "pending" ∨ p.status = "failed")
          then { p with status := "cancelled" } else p).status = "cancelled" ∧
          (p.status = "pending" ∨ p.status = "failed"))) ∧
      ((p.status = "completed" ∨ p.status = "cancelled") →
        (if p.challenge_id = some cid ∧ (p.status = "pending" ∨ p.status = "failed")
          then { p with status := "cancelled" } else p) = p) := by
    intro cid p
    by_cases hc : p.challenge_id = some cid ∧ (p.status = "pending" ∨ p.status = "failed")
    · refine ⟨Or.inr ⟨by simp [hc], hc.2⟩, ?_⟩
      intro hoc
      exfalso
      rcases hc.2 with h | h <;> rcases hoc with h2 | h2 <;> rw [h] at h2 <;>
        exact absurd h2 (by decide)
    · exact ⟨Or.inl (by simp [hc]), fun _ => by simp [hc]⟩
  refine ⟨?_, ?_, ?_⟩
  · intro db ch now
    exact forall2_map_self _ _ (hrow ch.id) db.payments
  · intro db ch u a now
    obtain ⟨tail, htail⟩ := processRefund_payments db u a ch.id
      (some (if ch.challenger = u then ch.opponent else ch.challenger)) now
    have hpp : (PaymentTimeoutChecker.handlePartialPaymentTimeout db ch u a now).db.payments
        = ((PaymentTimeoutChecker.processRefund db u a ch.id
            (some (if ch.challenger = u then ch.opponent else ch.challenger)) now).db.payments).map
          (fun p => if p.challenge_id = some ch.id ∧
              (p.status = "pending" ∨ p.status = "failed")
            then { p with status := "cancelled" } else p) := rfl
    rw [hpp, htail, take_len_map_append]
    exact forall2_map_self _ _ (hrow ch.id) db.payments
  · intro b db t
    rcases hex : PaymentController.extractRequestId b with _ | rid
    · rw [handleCallback_payments_none b db t hex]
      have h := forall2_map_self
        (fun pOld pNew : Payment =>
          pNew.status = pOld.status ∨
            pNew.status = PaymentController.mapCallbackStatus b)
        id (fun p => Or.inl rfl) db.payments
      rw [List.map_id] at h
      exact h
    · rw [handleCallback_payments_some b db t rid hex]
      refine forall2_map_self _ _ (fun p => ?_) db.payments
      by_cases h : p.request_id = rid
      · exact Or.inr (by simp [PaymentController.applyCallbackUpdate, h])
      · exact Or.inl (by simp [PaymentController.applyCallbackUpdate, h])

/-- Witness for C3 (amended) at the concrete counterexample store. -/
theorem C3_witness :
    List.Forall₂ (fun pOld pNew : Payment =>
        (pNew.status = pOld.status ∨
          (pNew.status = "cancelled" ∧
            (pOld.status = "pending" ∨ pOld.status = "failed"))) ∧
        ((pOld.status = "completed" ∨ pOld.status = "cancelled") → pNew = pOld))
      exDb3.payments
      ((PaymentTimeoutChecker.handleFullExpiry exDb3 exChallenge 99).db.payments) :=
  C3_status_transitions.1 exDb3 exChallenge 99

/-- Witness for C2 (amended): a concrete chain that keeps finding results
still settles exactly once. -/
theorem C2_witness :
    (PerMatchResultChecker.runChain ⟨0, true⟩
        [.notFound, .found ⟨"bob", "resigned", "u"⟩,
          .found ⟨"bob", "resigned", "u"⟩, .notFound]).2 ≤ 1 :=
  C2_at_most_one_settlement_per_chain _ _

end Chequemate
